import Mathlib

/-!
# Chatwoot / Matrix bridge

A shallow embedding of the bridge's mapping store
(`database/chatwoot-conversation-to-matrix-room.go`,
`store/chatwoot-message-to-matrix-event.go`, schema of `store/store.go`),
of the key-share policy `AllowKeyShare`, of `VerifyFromAuthorizedUser`, of the
event callbacks and the startup backfill of `main` (`chatwoot.go`), and of the
REST operations of `chatwootapi/api.go`.

Go values are modelled as follows.

* `id.RoomID`, `id.EventID`, `id.UserID` are Go strings: Lean `String`.
* Go `int` identifiers are Lean `Int`.
* A Go function returning `(T, error)` returns a pair whose second component
  is `Option` of the error (`none` is Go `nil`).
* A run-time panic (nil pointer dereference) is an explicit outcome.
* The relational tables are lists of rows; a transaction works on a copy of
  the tables and `Commit` installs the copy.
* Failures of the database connection are part of the store state
  (`Faults`): they say which of `Begin`, `Exec`, `Commit`, `Query` fail.
  No call of the bridge changes them; a history of the store may.

Outside the model:

* The width of the columns.  Matrix identifiers are at most 255 bytes long
  and the platform's ids fit `INTEGER`, so `VARCHAR(255)` and `INTEGER` hold
  every value the bridge stores.
* The construction of request URLs (`MakeUri`) and the wire format: a request
  of `ChatwootAPI` is identified by its endpoint and answered by an
  `HttpReply`.
* Logging, except the one log line of the decrypt-error callback that carries
  the decryption error.
-/

namespace Chatwoot

/-! ## Identifiers -/

abbrev RoomID := String
abbrev EventID := String
abbrev UserID := String
abbrev ConversationID := Int
abbrev MessageID := Int
abbrev ContactID := Int

/-! ## The relational store -/

/-- Errors of `database/sql`: `sql.ErrNoRows`, a violated UNIQUE / PRIMARY KEY
constraint, or a failure of the connection. -/
inductive DBError where
  | ErrNoRows
  | uniqueViolation (column : String)
  | connection (msg : String)
  deriving DecidableEq, Repr

/-- Which calls on the connection fail (and with which error). -/
structure Faults where
  beginErr : Option DBError
  execErr : Option DBError
  commitErr : Option DBError
  queryErr : Option DBError
  deriving DecidableEq, Repr

/-- A connection on which every call goes through. -/
def Faults.healthy : Faults :=
  { beginErr := none, execErr := none, commitErr := none, queryErr := none }

/-- Row of `chatwoot_conversation_to_matrix_room`:
`matrix_room_id VARCHAR(255) UNIQUE`, `chatwoot_conversation_id INTEGER UNIQUE`,
`PRIMARY KEY (matrix_room_id, chatwoot_conversation_id)`, and the column added
by `ADD COLUMN IF NOT EXISTS most_recent_event_id VARCHAR(255)` (nullable). -/
structure RoomRow where
  matrix_room_id : RoomID
  chatwoot_conversation_id : Int
  most_recent_event_id : Option EventID
  deriving DecidableEq, Repr

/-- Row of `chatwoot_message_to_matrix_event`:
`matrix_event_id VARCHAR(255) UNIQUE`, `chatwoot_message_id INTEGER`,
`PRIMARY KEY (matrix_event_id, chatwoot_message_id)`. -/
structure MessageRow where
  matrix_event_id : EventID
  chatwoot_message_id : Int
  deriving DecidableEq, Repr

/-- The two tables of the bridge. -/
structure Tables where
  chatwoot_conversation_to_matrix_room : List RoomRow
  chatwoot_message_to_matrix_event : List MessageRow
  deriving DecidableEq, Repr

/-- The store: the tables behind a connection. -/
structure Database where
  tables : Tables
  faults : Faults
  deriving DecidableEq, Repr

/-- The store right after `CreateTables`: both tables empty. -/
def Database.empty (f : Faults) : Database :=
  { tables := { chatwoot_conversation_to_matrix_room := [], chatwoot_message_to_matrix_event := [] },
    faults := f }

/-- The statements the bridge executes inside a transaction. -/
inductive Stmt where
  /-- UPDATE chatwoot_conversation_to_matrix_room SET most_recent_event_id = $2
  WHERE matrix_room_id = $1 -/
  | updateMostRecentEvent (roomID : RoomID) (mostRecentEventID : EventID)
  /-- INSERT INTO chatwoot_conversation_to_matrix_room (matrix_room_id,
  chatwoot_conversation_id) VALUES ($1, $2) ON CONFLICT (matrix_room_id) DO
  UPDATE SET chatwoot_conversation_id = $2 -/
  | upsertConversation (roomID : RoomID) (conversationID : Int)
  /-- INSERT INTO chatwoot_message_to_matrix_event (matrix_event_id,
  chatwoot_message_id) VALUES ($1, $2) -/
  | insertMessage (eventID : EventID) (messageID : Int)
  deriving DecidableEq, Repr

/-- What `SET most_recent_event_id = $2 WHERE matrix_room_id = $1` does to one
row. -/
def RoomRow.setMostRecentEvent (roomID : RoomID) (e : EventID) (row : RoomRow) : RoomRow :=
  if row.matrix_room_id = roomID then { row with most_recent_event_id := some e } else row

/-- What `SET chatwoot_conversation_id = $2` does to one row, for the row of
the conflicting room id. -/
def RoomRow.setConversation (roomID : RoomID) (c : Int) (row : RoomRow) : RoomRow :=
  if row.matrix_room_id = roomID then { row with chatwoot_conversation_id := c } else row

/-- The UPDATE of `UpdateMostRecentEventIdForRoom`: every row of the room gets
the new event id; no row is added. -/
def sqlUpdateMostRecentEvent (rows : List RoomRow) (roomID : RoomID) (e : EventID) :
    List RoomRow :=
  rows.map (RoomRow.setMostRecentEvent roomID e)

/-- The upsert of `UpdateConversationIdForRoom`.  The arbiter of ON CONFLICT is
the unique index on `matrix_room_id` only: a clash on the unique index of
`chatwoot_conversation_id` with a row of another room is an error, both on the
insert path and on the update path. -/
def sqlUpsertConversation (rows : List RoomRow) (roomID : RoomID) (c : Int) :
    Except DBError (List RoomRow) :=
  if rows.any (fun row => decide (row.matrix_room_id ≠ roomID ∧ row.chatwoot_conversation_id = c)) then
    .error (.uniqueViolation "chatwoot_conversation_id")
  else if rows.any (fun row => decide (row.matrix_room_id = roomID)) then
    .ok (rows.map (RoomRow.setConversation roomID c))
  else
    .ok (rows ++ [{ matrix_room_id := roomID, chatwoot_conversation_id := c,
                    most_recent_event_id := none }])

/-- The INSERT of `SetChatwootMessageIdForMatrixEvent`: `matrix_event_id` is
UNIQUE, so an event id that is already in the table is rejected (the composite
primary key is then never the violated constraint). -/
def sqlInsertMessage (rows : List MessageRow) (e : EventID) (m : Int) :
    Except DBError (List MessageRow) :=
  if rows.any (fun row => decide (row.matrix_event_id = e)) then
    .error (.uniqueViolation "matrix_event_id")
  else
    .ok (rows ++ [{ matrix_event_id := e, chatwoot_message_id := m }])

/-- Effect of one statement on the tables. -/
def Stmt.run (t : Tables) : Stmt → Except DBError Tables
  | .updateMostRecentEvent r e =>
      .ok { t with chatwoot_conversation_to_matrix_room :=
              sqlUpdateMostRecentEvent t.chatwoot_conversation_to_matrix_room r e }
  | .upsertConversation r c =>
      match sqlUpsertConversation t.chatwoot_conversation_to_matrix_room r c with
      | .ok rows => .ok { t with chatwoot_conversation_to_matrix_room := rows }
      | .error err => .error err
  | .insertMessage e m =>
      match sqlInsertMessage t.chatwoot_message_to_matrix_event e m with
      | .ok rows => .ok { t with chatwoot_message_to_matrix_event := rows }
      | .error err => .error err

/-- An open transaction (`*sql.Tx`): its private copy of the tables. -/
structure Tx where
  work : Tables
  deriving DecidableEq, Repr

/-- The call `store.DB.Begin()`: on failure the returned `tx` is nil. -/
def Database.Begin (store : Database) : Option Tx × Option DBError :=
  match store.faults.beginErr with
  | some err => (none, some err)
  | none => (some { work := store.tables }, none)

/-- The call `tx.ExecContext(ctx, stmt, ...)` / `tx.Exec(stmt, ...)`: the new
transaction state, or the error. -/
def Tx.Exec (store : Database) (tx : Tx) (s : Stmt) : Except DBError Tx :=
  match store.faults.execErr with
  | some err => .error err
  | none =>
    match s.run tx.work with
    | .ok t => .ok { work := t }
    | .error err => .error err

/-- The call `tx.Commit()`: installs the transaction's tables unless it fails. -/
def Tx.Commit (store : Database) (tx : Tx) : Option DBError × Database :=
  match store.faults.commitErr with
  | some err => (some err, store)
  | none => (none, { store with tables := tx.work })

/-- How a call to a Go function of result type `error` ends: it returns (nil
or an error) or the goroutine panics. -/
inductive Outcome where
  | returned (err : Option DBError)
  | panicked
  deriving DecidableEq, Repr

/-- The call `tx.Rollback()` on a `*sql.Tx` that may be nil: the method reads
through its receiver, so a nil receiver is a nil pointer dereference.  The
result is `true` when the call returns (its own error is dropped by every
caller), `false` when it panics. -/
def Rollback (tx : Option Tx) : Bool :=
  tx.isSome

/-- The body the three writers share, statement apart:

    tx, err := store.DB.Begin()
    if err != nil { tx.Rollback(); return err }
    if _, err := tx.ExecContext(ctx, stmt, ...); err != nil { tx.Rollback(); return err }
    return tx.Commit()

When `Begin` fails `tx` is nil, and `tx.Rollback()` runs before `return err`. -/
def writeInTx (store : Database) (s : Stmt) : Outcome × Database :=
  match store.Begin with
  | (tx, some err) =>
    if Rollback tx then (.returned (some err), store) else (.panicked, store)
  | (none, none) => (.panicked, store)
  | (some tx, none) =>
    match tx.Exec store s with
    | .error err =>
      if Rollback (some tx) then (.returned (some err), store) else (.panicked, store)
    | .ok tx2 =>
      match tx2.Commit store with
      | (err, store2) => (.returned err, store2)

/-- Source: `(*Database).UpdateMostRecentEventIdForRoom`. -/
def UpdateMostRecentEventIdForRoom (store : Database) (roomID : RoomID)
    (mostRecentEventID : EventID) : Outcome × Database :=
  writeInTx store (.updateMostRecentEvent roomID mostRecentEventID)

/-- Source: `(*Database).UpdateConversationIdForRoom`. -/
def UpdateConversationIdForRoom (store : Database) (roomID : RoomID)
    (conversationID : Int) : Outcome × Database :=
  writeInTx store (.upsertConversation roomID conversationID)

/-- Source: `(*StateStore).SetChatwootMessageIdForMatrixEvent`. -/
def SetChatwootMessageIdForMatrixEvent (store : Database) (eventID : EventID)
    (messageID : MessageID) : Outcome × Database :=
  writeInTx store (.insertMessage eventID messageID)

/-- The call `store.DB.QueryRowContext(...)` followed by `row.Scan(...)`: the
first row of the result set; `sql.ErrNoRows` when it is empty. -/
def QueryRow {α : Type} (store : Database) (result : List α) : Except DBError α :=
  match store.faults.queryErr with
  | some err => .error err
  | none =>
    match result with
    | [] => .error .ErrNoRows
    | a :: _ => .ok a

/-- Source: `(*Database).GetChatwootConversationIDFromMatrixRoom`. -/
def GetChatwootConversationIDFromMatrixRoom (store : Database) (roomID : RoomID) :
    Int × Option DBError :=
  match QueryRow store
      ((store.tables.chatwoot_conversation_to_matrix_room.filter
          fun row => decide (row.matrix_room_id = roomID)).map
        fun row => row.chatwoot_conversation_id) with
  | .error err => (-1, some err)
  | .ok chatwootConversationId => (chatwootConversationId, none)

/-- Source: `(*Database).GetMatrixRoomFromChatwootConversation`. -/
def GetMatrixRoomFromChatwootConversation (store : Database) (conversationID : Int) :
    RoomID × EventID × Option DBError :=
  match QueryRow store
      ((store.tables.chatwoot_conversation_to_matrix_room.filter
          fun row => decide (row.chatwoot_conversation_id = conversationID)).map
        fun row => (row.matrix_room_id, row.most_recent_event_id)) with
  | .error err => ("", "", some err)
  | .ok (roomID, mostRecentEventIdStr) =>
    match mostRecentEventIdStr with
    | some s => (roomID, s, none)
    | none => (roomID, "", none)

/-- Source: `(*StateStore).GetMatrixEventIDsForChatwootMessage`: a failed query
is logged and gives the empty list. -/
def GetMatrixEventIDsForChatwootMessage (store : Database) (messageID : MessageID) :
    List EventID :=
  match store.faults.queryErr with
  | some _ => []
  | none =>
    (store.tables.chatwoot_message_to_matrix_event.filter
        fun row => decide (row.chatwoot_message_id = messageID)).map
      fun row => row.matrix_event_id

/-- Source: `(*StateStore).GetChatwootMessageIDsForMatrixEventID`. -/
def GetChatwootMessageIDsForMatrixEventID (store : Database) (matrixEventID : EventID) :
    List MessageID × Option DBError :=
  match store.faults.queryErr with
  | some err => ([], some err)
  | none =>
    ((store.tables.chatwoot_message_to_matrix_event.filter
        fun row => decide (row.matrix_event_id = matrixEventID)).map
      fun row => row.chatwoot_message_id, none)

/-! ## The ticketing platform -/

/-- Source: `chatwootapi.Contact`. -/
structure Contact where
  ID : ContactID
  Email : String
  Identifier : String
  deriving DecidableEq, Repr

/-- Source: `chatwootapi.ConversationMeta`. -/
structure ConversationMeta where
  Sender : Contact
  deriving DecidableEq, Repr

/-- Source: `chatwootapi.Conversation` (the messages and custom attributes are
not read by the code modelled here). -/
structure Conversation where
  ID : ConversationID
  AccountID : Int
  InboxID : Int
  Meta : ConversationMeta
  deriving DecidableEq, Repr

/-- What happens to one HTTP request: building it fails, sending it fails, or
a response arrives with a status code and a body that decodes or not. -/
inductive HttpReply (α : Type) where
  | requestError (msg : String)
  | transportError (msg : String)
  | response (StatusCode : Nat) (decoded : Except String α)

/-- The platform as seen by `ChatwootAPI`: the reply to
`GET conversations/<id>` for each conversation id. -/
structure ChatwootAPI where
  BaseURL : String
  AccountID : Int
  InboxID : Int
  AccessToken : String
  getConversation : ConversationID → HttpReply Conversation

/-- Source: `(*ChatwootAPI).GetChatwootConversation`.  The Go result
`(*Conversation, error)` is either `(nil, err)` or `(&conversation, nil)`:
`Except.error err` or `Except.ok conversation`. -/
def GetChatwootConversation (api : ChatwootAPI) (conversationID : ConversationID) :
    Except String Conversation :=
  match api.getConversation conversationID with
  | .requestError err => .error err
  | .transportError err => .error err
  | .response StatusCode decoded =>
    if StatusCode ≠ 200 then
      .error ("GET conversations/" ++ toString conversationID ++
        " returned non-200 status code: " ++ toString StatusCode)
    else
      match decoded with
      | .error err => .error err
      | .ok conversation => .ok conversation

/-! ## Configuration and globals of `main` -/

/-- Source: `Configuration`.  `Username` is an `id.UserID`: `chatwoot.go`
compares it with `device.UserID` and calls its `Homeserver()` and `String()`. -/
structure Configuration where
  Homeserver : String
  Username : UserID
  PasswordFile : String
  ChatwootBaseUrl : String
  ChatwootAccessTokenFile : String
  ChatwootAccountID : Int
  ChatwootInboxID : Int
  DBConnectionString : String
  AllowMessagesFromUsersOnOtherHomeservers : Bool
  CanonicalDMPrefix : String
  BridgeIfMembersLessThan : Int
  RenderMarkdown : Bool
  ListenPort : Int
  deriving DecidableEq, Repr

/-- The package-level variables of `chatwoot.go`. -/
structure Globals where
  configuration : Configuration
  botHomeserver : String
  stateStore : Database
  chatwootApi : ChatwootAPI

/-! ## Key sharing -/

/-- Type `id.Device` of the Matrix library. -/
structure Device where
  UserID : UserID
  DeviceID : String
  IdentityKey : String
  SigningKey : String
  Trust : Nat
  Deleted : Bool
  Name : String
  deriving DecidableEq, Repr

/-- Type `event.RequestedKeyInfo` of the Matrix library. -/
structure RequestedKeyInfo where
  Algorithm : String
  RoomID : RoomID
  SenderKey : String
  SessionID : String
  deriving DecidableEq, Repr

/-- Type `crypto.KeyShareRejection` of the Matrix library. -/
structure KeyShareRejection where
  Code : String
  Reason : String
  deriving DecidableEq, Repr

/-- The value `crypto.KeyShareRejectNoResponse`: reject, send nothing back. -/
def KeyShareRejectNoResponse : KeyShareRejection := { Code := "", Reason := "" }

/-- Source: `AllowKeyShare`.  The result `none` is Go `nil`: the key is shared. -/
def AllowKeyShare (g : Globals) (device : Device) (info : RequestedKeyInfo) :
    Option KeyShareRejection :=
  if device.UserID = g.configuration.Username then
    none
  else
    match GetChatwootConversationIDFromMatrixRoom g.stateStore info.RoomID with
    | (_, some _) => some KeyShareRejectNoResponse
    | (conversationID, none) =>
      match GetChatwootConversation g.chatwootApi conversationID with
      | .error _ => some KeyShareRejectNoResponse
      | .ok conversation =>
        if conversation.Meta.Sender.Identifier = device.UserID then
          none
        else
          some KeyShareRejectNoResponse

/-! ## Sender authorization -/

/-- The Matrix library, as far as the bridge calls into it: `Parse` is
`id.UserID.Parse`, which returns the localpart and the homeserver of a user
id, or an error. -/
structure Mautrix where
  Parse : UserID → Except String (String × String)

/-- Source: `VerifyFromAuthorizedUser`. -/
def VerifyFromAuthorizedUser (lib : Mautrix) (g : Globals) (sender : UserID) : Bool :=
  if g.configuration.AllowMessagesFromUsersOnOtherHomeservers then
    true
  else
    match lib.Parse sender with
    | .error _ => false
    | .ok (_, homeserver) => decide (g.botHomeserver = homeserver)

/-- Splits a list of characters at its first colon. -/
def splitAtColon : List Char → Option (List Char × List Char)
  | [] => none
  | c :: cs =>
    if c = ':' then some ([], cs)
    else
      match splitAtColon cs with
      | none => none
      | some (a, b) => some (c :: a, b)

/-- The library function `id.UserID.Parse`: a user id is `@localpart:homeserver`,
split at the first colon; anything that does not start with `@` or has no
colon is an error. -/
def parseUserID (userID : UserID) : Except String (String × String) :=
  match userID.data with
  | '@' :: rest =>
    match splitAtColon rest with
    | some (localpart, homeserver) => .ok (String.mk localpart, String.mk homeserver)
    | none => .error "is not a valid user ID"
  | _ => .error "is not a valid user ID"

/-- The Matrix library with the real `Parse`. -/
def mautrix : Mautrix := { Parse := parseUserID }

/-! ## Events and the callbacks registered in `main` -/

/-- The event types the bridge distinguishes (`event.Type`). -/
inductive EventType where
  | EventMessage
  | EventReaction
  | EventRedaction
  | EventEncrypted
  | other (name : String)
  deriving DecidableEq, Repr

/-- Type `event.Event` of the Matrix library: the fields the callbacks read,
and the content (`Type_` is the field `Type`). -/
structure Event where
  Type_ : EventType
  Sender : UserID
  RoomID : RoomID
  ID : EventID
  Content : String
  deriving DecidableEq, Repr

/-- The handlers started as goroutines by the callbacks. -/
inductive Handler where
  | HandleBeeperClientInfo
  | HandleMessage
  | HandleReaction
  | HandleRedaction
  deriving DecidableEq, Repr

/-- The calls a callback makes, as they appear in its trace. -/
inductive Call where
  | UpdateMostRecentEventIdForRoom (roomID : RoomID) (eventID : EventID)
  | VerifyFromAuthorizedUser (sender : UserID)
  | GetChatwootConversationIDFromMatrixRoom (roomID : RoomID)
  /-- The statement `go handler(ctx, source, evt)`. -/
  | go (handler : Handler) (evt : Event)
  /-- The call `DoRetry(ctx, label, op)` where `op` calls
  `chatwootApi.SendPrivateMessage(ctx, conversationID, content)`. -/
  | DoRetrySendPrivateMessage (label : String) (conversationID : Int) (content : String)
  /-- The log line `log.Error().Err(err).Msg(msg)`. -/
  | logError (err : Option String) (msg : String)
  deriving DecidableEq, Repr

/-- One run of a callback: the calls it made in program order, whether it
ended in a panic, and the store it leaves. -/
structure Run where
  calls : List Call
  panicked : Bool
  stateStore : Database
  deriving DecidableEq, Repr

/-- The body of the three callbacks registered with `syncer.OnEventType`; they
differ in the handler they start only. -/
def eventCallback (handler : Handler) (lib : Mautrix) (g : Globals) (evt : Event) : Run :=
  match UpdateMostRecentEventIdForRoom g.stateStore evt.RoomID evt.ID with
  | (.panicked, store) =>
    { calls := [.UpdateMostRecentEventIdForRoom evt.RoomID evt.ID],
      panicked := true, stateStore := store }
  | (.returned _, store) =>
    if VerifyFromAuthorizedUser lib g evt.Sender then
      { calls := [.UpdateMostRecentEventIdForRoom evt.RoomID evt.ID,
                  .VerifyFromAuthorizedUser evt.Sender,
                  .go .HandleBeeperClientInfo evt,
                  .go handler evt],
        panicked := false, stateStore := store }
    else
      { calls := [.UpdateMostRecentEventIdForRoom evt.RoomID evt.ID,
                  .VerifyFromAuthorizedUser evt.Sender],
        panicked := false, stateStore := store }

/-- Source: the callback of `syncer.OnEventType(event.EventMessage, ...)`. -/
def onEventMessage (lib : Mautrix) (g : Globals) (evt : Event) : Run :=
  eventCallback .HandleMessage lib g evt

/-- Source: the callback of `syncer.OnEventType(event.EventReaction, ...)`. -/
def onEventReaction (lib : Mautrix) (g : Globals) (evt : Event) : Run :=
  eventCallback .HandleReaction lib g evt

/-- Source: the callback of `syncer.OnEventType(event.EventRedaction, ...)`. -/
def onEventRedaction (lib : Mautrix) (g : Globals) (evt : Event) : Run :=
  eventCallback .HandleRedaction lib g evt

/-- The syncer hands an event to the callback registered for its type; no
callback is registered for the other types. -/
def router (lib : Mautrix) (g : Globals) (evt : Event) : Option Run :=
  match evt.Type_ with
  | .EventMessage => some (onEventMessage lib g evt)
  | .EventReaction => some (onEventReaction lib g evt)
  | .EventRedaction => some (onEventRedaction lib g evt)
  | _ => none

/-- The text of a `DBError` (its `Error()` method). -/
def DBError.Error : DBError → String
  | .ErrNoRows => "sql: no rows in result set"
  | .uniqueViolation column => "duplicate key value violates unique constraint on " ++ column
  | .connection msg => msg

/-- The verb `%+v` of `fmt.Sprintf` applied to a Go `error`: the text of the
error, and `<nil>` for a nil error. -/
def fmtError : Option String → String
  | none => "<nil>"
  | some msg => msg

/-- Source: `cryptoHelper.DecryptErrorCallback`.  The parameter `err` is the
decryption error (its text); the short variable declaration
`conversationID, err := stateStore.GetChatwootConversationIDFromMatrixRoom(...)`
sits in the function's outermost block, so it assigns to that same `err`. -/
def DecryptErrorCallback (lib : Mautrix) (g : Globals) (evt : Event) (err : Option String) :
    Run :=
  let logged : List Call :=
    [.logError err "Failed to decrypt message",
     .UpdateMostRecentEventIdForRoom evt.RoomID evt.ID]
  match UpdateMostRecentEventIdForRoom g.stateStore evt.RoomID evt.ID with
  | (.panicked, store) =>
    { calls := logged, panicked := true, stateStore := store }
  | (.returned _, store) =>
    let verified : List Call := logged ++ [.VerifyFromAuthorizedUser evt.Sender]
    if !VerifyFromAuthorizedUser lib g evt.Sender then
      { calls := verified, panicked := false, stateStore := store }
    else
      let looked : List Call :=
        verified ++ [.GetChatwootConversationIDFromMatrixRoom evt.RoomID]
      match GetChatwootConversationIDFromMatrixRoom store evt.RoomID with
      | (conversationID, dbErr) =>
        let err : Option String := dbErr.map DBError.Error
        if err.isSome then
          { calls := looked, panicked := false, stateStore := store }
        else
          { calls := looked ++
              [.DoRetrySendPrivateMessage
                ("send private error message to " ++ toString conversationID ++
                  " for " ++ fmtError err)
                conversationID
                ("**Failed to decrypt Matrix event (" ++ evt.ID ++
                  "). You probably missed a message!**\n\nError: " ++ fmtError err)],
            panicked := false, stateStore := store }

/-! ## Sample data

The scenario of the bridge's documentation: the bot `@help:example.org`, the
room `!abc:example.org` of `@alice:example.org`, mapped to conversation 42. -/

/-- The configuration of the sample bot. -/
def sampleConfiguration : Configuration :=
  { Homeserver := "https://matrix.example.org", Username := "@help:example.org",
    PasswordFile := "/run/secrets/password", ChatwootBaseUrl := "https://app.chatwoot.com/",
    ChatwootAccessTokenFile := "/run/secrets/token", ChatwootAccountID := 1,
    ChatwootInboxID := 1, DBConnectionString := "postgres://chatwoot@db/chatwoot",
    AllowMessagesFromUsersOnOtherHomeservers := false, CanonicalDMPrefix := "",
    BridgeIfMembersLessThan := -1, RenderMarkdown := false, ListenPort := 8080 }

/-- The sample store: one mapped room, healthy connection. -/
def sampleStore : Database :=
  { tables :=
      { chatwoot_conversation_to_matrix_room :=
          [{ matrix_room_id := "!abc:example.org", chatwoot_conversation_id := 42,
             most_recent_event_id := some "$e1" }],
        chatwoot_message_to_matrix_event := [] },
    faults := Faults.healthy }

/-- The conversation 42 of the sample platform: its contact is Alice. -/
def sampleConversation : Conversation :=
  { ID := 42, AccountID := 1, InboxID := 1,
    Meta := { Sender := { ID := 7, Email := "@alice:example.org",
                          Identifier := "@alice:example.org" } } }

/-- The sample platform: conversation 42 exists, every other id is a 404. -/
def sampleApi : ChatwootAPI :=
  { BaseURL := "https://app.chatwoot.com/", AccountID := 1, InboxID := 1,
    AccessToken := "token",
    getConversation := fun c =>
      if c = 42 then .response 200 (.ok sampleConversation)
      else .response 404 (.error "not found") }

/-- The globals of the sample bot. -/
def sampleGlobals : Globals :=
  { configuration := sampleConfiguration, botHomeserver := "example.org",
    stateStore := sampleStore, chatwootApi := sampleApi }

/-- A device of Alice. -/
def aliceDevice : Device :=
  { UserID := "@alice:example.org", DeviceID := "ALICEPHONE", IdentityKey := "curve-a",
    SigningKey := "ed-a", Trust := 0, Deleted := false, Name := "phone" }

/-- Another device of Alice: everything but the user id differs. -/
def aliceOtherDevice : Device :=
  { UserID := "@alice:example.org", DeviceID := "ALICELAPTOP", IdentityKey := "curve-b",
    SigningKey := "ed-b", Trust := 2, Deleted := true, Name := "laptop" }

/-- A device of Mallory. -/
def malloryDevice : Device :=
  { UserID := "@mallory:example.org", DeviceID := "MALLORY", IdentityKey := "curve-m",
    SigningKey := "ed-m", Trust := 0, Deleted := false, Name := "" }

/-- A key request for a session of the sample room. -/
def sampleKeyInfo : RequestedKeyInfo :=
  { Algorithm := "m.megolm.v1.aes-sha2", RoomID := "!abc:example.org",
    SenderKey := "sender-key-1", SessionID := "session-1" }

/-- A key request for the same room: algorithm, sender key and session differ. -/
def otherKeyInfo : RequestedKeyInfo :=
  { Algorithm := "m.olm.v1", RoomID := "!abc:example.org",
    SenderKey := "sender-key-2", SessionID := "session-2" }

/-- The sample bot with other settings, and with a store and a platform that
hold more than the first one: the username, the mapping of the sample room
and the record of conversation 42 are the same. -/
def otherGlobals : Globals :=
  { configuration :=
      { sampleConfiguration with
        AllowMessagesFromUsersOnOtherHomeservers := true, RenderMarkdown := true,
        ListenPort := 9000 },
    botHomeserver := "example.org",
    stateStore :=
      { tables :=
          { chatwoot_conversation_to_matrix_room :=
              [{ matrix_room_id := "!abc:example.org", chatwoot_conversation_id := 42,
                 most_recent_event_id := some "$e77" },
               { matrix_room_id := "!xyz:example.org", chatwoot_conversation_id := 43,
                 most_recent_event_id := none }],
            chatwoot_message_to_matrix_event :=
              [{ matrix_event_id := "$e1", chatwoot_message_id := 1001 }] },
        faults := { Faults.healthy with beginErr := some (.connection "connection refused") } },
    chatwootApi :=
      { sampleApi with
        AccessToken := "another token",
        getConversation := fun c =>
          if c = 42 then .response 200 (.ok sampleConversation)
          else .transportError "timeout" } }

/-- The sample bot with cross-homeserver senders allowed. -/
def openGlobals : Globals :=
  { sampleGlobals with
    configuration :=
      { sampleConfiguration with AllowMessagesFromUsersOnOtherHomeservers := true } }

/-- The sample bot on a connection that refuses to start transactions. -/
def brokenGlobals : Globals :=
  { sampleGlobals with
    configuration :=
      { sampleConfiguration with AllowMessagesFromUsersOnOtherHomeservers := true },
    stateStore :=
      { sampleStore with
        faults := { Faults.healthy with beginErr := some (.connection "connection refused") } } }

/-- The sample bot before any room is mapped. -/
def freshGlobals : Globals :=
  { sampleGlobals with stateStore := Database.empty Faults.healthy }

/-- A message of Alice in the sample room. -/
def aliceMessage : Event :=
  { Type_ := .EventMessage, Sender := "@alice:example.org", RoomID := "!abc:example.org",
    ID := "$e2", Content := "hello" }

/-- An encrypted event of Alice in the sample room. -/
def aliceEncrypted : Event :=
  { Type_ := .EventEncrypted, Sender := "@alice:example.org", RoomID := "!abc:example.org",
    ID := "$e3", Content := "ciphertext" }

/-! ## Histories of the store -/

/-- One step in the life of the store: a call of one of the three writers, or
a change of the connection's health. -/
inductive StoreOp where
  | UpdateConversationIdForRoom (roomID : RoomID) (conversationID : Int)
  | UpdateMostRecentEventIdForRoom (roomID : RoomID) (mostRecentEventID : EventID)
  | SetChatwootMessageIdForMatrixEvent (eventID : EventID) (messageID : MessageID)
  | setFaults (f : Faults)
  deriving DecidableEq, Repr

/-- The store after one step, whether the call succeeded, failed or panicked. -/
def StoreOp.apply (store : Database) : StoreOp → Database
  | .UpdateConversationIdForRoom r c => (Chatwoot.UpdateConversationIdForRoom store r c).2
  | .UpdateMostRecentEventIdForRoom r e => (Chatwoot.UpdateMostRecentEventIdForRoom store r e).2
  | .SetChatwootMessageIdForMatrixEvent e m =>
      (Chatwoot.SetChatwootMessageIdForMatrixEvent store e m).2
  | .setFaults f => { store with faults := f }

/-- The store after a sequence of steps. -/
def runOps (store : Database) (ops : List StoreOp) : Database :=
  ops.foldl StoreOp.apply store

/-- The rows of the room table are pairwise different in the room id and in
the conversation id: the two UNIQUE constraints of the schema. -/
def RoomsValid (rows : List RoomRow) : Prop :=
  rows.Pairwise fun a b =>
    a.matrix_room_id ≠ b.matrix_room_id ∧ a.chatwoot_conversation_id ≠ b.chatwoot_conversation_id

/-- The most recent event the store holds for a room: the column
`most_recent_event_id` of the room's row, if the room has a row and the column
is not NULL. -/
def mostRecentEventOf (store : Database) (roomID : RoomID) : Option EventID :=
  ((store.tables.chatwoot_conversation_to_matrix_room.filter
      fun row => decide (row.matrix_room_id = roomID)).head?).bind
    fun row => row.most_recent_event_id

/-- A sample history: two rooms are mapped, an event is recorded, the
connection breaks and recovers, and a message mapping is stored. -/
def sampleOps : List StoreOp :=
  [.UpdateConversationIdForRoom "!abc:example.org" 42,
   .UpdateMostRecentEventIdForRoom "!abc:example.org" "$e1",
   .setFaults { Faults.healthy with beginErr := some (.connection "connection refused") },
   .UpdateConversationIdForRoom "!lost:example.org" 44,
   .setFaults Faults.healthy,
   .UpdateConversationIdForRoom "!xyz:example.org" 43,
   .SetChatwootMessageIdForMatrixEvent "$e1" 1001]

/-- The empty store after `SetChatwootMessageIdForMatrixEvent("$e1", 1001)`. -/
def storeWithOneMessage : Database :=
  { tables :=
      { chatwoot_conversation_to_matrix_room := [],
        chatwoot_message_to_matrix_event :=
          [{ matrix_event_id := "$e1", chatwoot_message_id := 1001 }] },
    faults := Faults.healthy }

/-! ## The REST operations of `ChatwootAPI` -/

/-- Source: `chatwootapi.ContactsPayload`. -/
structure ContactsPayload where
  Payload : List Contact
  deriving DecidableEq, Repr

/-- Source: `chatwootapi.ContactPayloadInner`. -/
structure ContactPayloadInner where
  Contact : Contact
  deriving DecidableEq, Repr

/-- Source: `chatwootapi.ContactPayload`. -/
structure ContactPayload where
  Payload : ContactPayloadInner
  deriving DecidableEq, Repr

/-- Source: `chatwootapi.CreateContactPayload`. -/
structure CreateContactPayload where
  InboxID : Int
  Name : String
  Email : String
  PhoneNumber : String
  Identifier : String
  deriving DecidableEq, Repr

/-- Source: `chatwootapi.Message` (attachments and sender are not read by the
code modelled here). -/
structure Message where
  ID : MessageID
  Content : Option String
  Private : Bool
  deriving DecidableEq, Repr

/-- Source: `chatwootapi.MessageType`. -/
inductive MessageType where
  | IncomingMessage
  | OutgoingMessage
  deriving DecidableEq, Repr

/-- Source: `chatwootapi.MessageTypeString`. -/
def MessageTypeString : MessageType → String
  | .IncomingMessage => "incoming"
  | .OutgoingMessage => "outgoing"

/-- The JSON object `doSendTextMessage` posts. -/
structure MessageValues where
  content : String
  message_type : String
  isPrivate : Bool
  deriving DecidableEq, Repr

/-- The replies of the platform to the requests of `ChatwootAPI` other than
`GET conversations/<id>`, one field for each request the client sends; the
arguments are what the request carries.  A reply whose body the client does
not decode has the type `HttpReply Unit`. -/
structure Endpoints where
  /-- POST contacts -/
  postContacts : CreateContactPayload → HttpReply ContactPayload
  /-- GET contacts/search?q=... -/
  getContactsSearch : String → HttpReply ContactsPayload
  /-- POST conversations, with source id, inbox id, contact id and the
  additional attributes -/
  postConversations : String → Int → ContactID → List (String × String) →
    HttpReply Conversation
  /-- POST conversations/<id>/labels -/
  postLabels : ConversationID → List String → HttpReply Unit
  /-- POST conversations/<id>/custom_attributes -/
  postCustomAttributes : ConversationID → List (String × String) → HttpReply Unit
  /-- POST conversations/<id>/messages with a JSON body -/
  postMessages : ConversationID → MessageValues → HttpReply Message
  /-- POST conversations/<id>/messages with a multipart body: file name,
  content type, file data, message type -/
  postAttachment : ConversationID → String → String → List Nat → String → HttpReply Message
  /-- GET of an attachment URL; the decoded body is the bytes read -/
  getAttachment : String → HttpReply (List Nat)
  /-- DELETE conversations/<id>/messages/<id> -/
  deleteMessage : ConversationID → MessageID → HttpReply Unit

/-- Source: `(*ChatwootAPI).CreateContact`. -/
def CreateContact (api : ChatwootAPI) (ep : Endpoints) (userID : UserID) :
    ContactID × Option String :=
  match ep.postContacts { InboxID := api.InboxID, Name := userID, Email := userID,
                          PhoneNumber := "", Identifier := userID } with
  | .requestError err => (0, some err)
  | .transportError err => (0, some err)
  | .response StatusCode decoded =>
    if StatusCode ≠ 200 then
      (0, some ("POST contacts returned non-200 status code: " ++ toString StatusCode))
    else
      match decoded with
      | .error err => (0, some err)
      | .ok contactPayload => (contactPayload.Payload.Contact.ID, none)

/-- The loop of `ContactIDForMxid` over the decoded contacts: the id of the
first contact whose identifier is the user id. -/
def firstContactWithIdentifier (userID : UserID) : List Contact → Option ContactID
  | [] => none
  | contact :: rest =>
    if contact.Identifier = userID then some contact.ID
    else firstContactWithIdentifier userID rest

/-- Source: `(*ChatwootAPI).ContactIDForMxid`. -/
def ContactIDForMxid (ep : Endpoints) (userID : UserID) : ContactID × Option String :=
  match ep.getContactsSearch userID with
  | .requestError err => (0, some err)
  | .transportError err => (0, some err)
  | .response StatusCode decoded =>
    if StatusCode ≠ 200 then
      (0, some ("GET contacts/search returned non-200 status code: " ++ toString StatusCode))
    else
      match decoded with
      | .error err => (0, some err)
      | .ok contactsPayload =>
        match firstContactWithIdentifier userID contactsPayload.Payload with
        | some id => (id, none)
        | none => (0, some ("Couldn't find user with user ID " ++ userID ++ "!"))

/-- Source: `(*ChatwootAPI).CreateConversation`.  The body of the response,
which the error message quotes after the status code, is left out. -/
def CreateConversation (api : ChatwootAPI) (ep : Endpoints) (sourceID : String)
    (contactID : ContactID) (additionalAttrs : List (String × String)) :
    Except String Conversation :=
  match ep.postConversations sourceID api.InboxID contactID additionalAttrs with
  | .requestError err => .error err
  | .transportError err => .error err
  | .response StatusCode decoded =>
    if StatusCode ≠ 200 then
      .error ("POST conversations returned non-200 status code: " ++ toString StatusCode)
    else
      match decoded with
      | .error err => .error err
      | .ok conversation => .ok conversation

/-- Source: `(*ChatwootAPI).AddConversationLabel`.  The result is the Go
`error` (`none` is nil); a failure to marshal the labels is `requestError`;
the quoted body is left out of the message. -/
def AddConversationLabel (ep : Endpoints) (conversationID : ConversationID)
    (labels : List String) : Option String :=
  match ep.postLabels conversationID labels with
  | .requestError err => some err
  | .transportError err => some err
  | .response StatusCode _ =>
    if StatusCode ≠ 200 then
      some ("POST conversations returned non-200 status code: " ++ toString StatusCode)
    else
      none

/-- Source: `(*ChatwootAPI).SetConversationCustomAttributes`. -/
def SetConversationCustomAttributes (ep : Endpoints) (conversationID : ConversationID)
    (customAttrs : List (String × String)) : Option String :=
  match ep.postCustomAttributes conversationID customAttrs with
  | .requestError err => some err
  | .transportError err => some err
  | .response StatusCode _ =>
    if StatusCode ≠ 200 then
      some ("POST conversations/" ++ toString conversationID ++
        "/custom_attributes returned non-200 status code: " ++ toString StatusCode)
    else
      none

/-- Source: `(*ChatwootAPI).doSendTextMessage`.  The quoted body is left out of
the message. -/
def doSendTextMessage (ep : Endpoints) (conversationID : ConversationID)
    (jsonValues : MessageValues) : Except String Message :=
  match ep.postMessages conversationID jsonValues with
  | .requestError err => .error err
  | .transportError err => .error err
  | .response StatusCode decoded =>
    if StatusCode ≠ 200 then
      .error ("POST conversations/" ++ toString conversationID ++
        "/messages returned non-200 status code: " ++ toString StatusCode)
    else
      match decoded with
      | .error err => .error err
      | .ok message => .ok message

/-- Source: `(*ChatwootAPI).SendTextMessage`. -/
def SendTextMessage (ep : Endpoints) (conversationID : ConversationID) (content : String)
    (messageType : MessageType) : Except String Message :=
  doSendTextMessage ep conversationID
    { content := content, message_type := MessageTypeString messageType, isPrivate := false }

/-- Source: `(*ChatwootAPI).SendPrivateMessage`. -/
def SendPrivateMessage (ep : Endpoints) (conversationID : ConversationID) (content : String) :
    Except String Message :=
  doSendTextMessage ep conversationID
    { content := content, message_type := MessageTypeString .OutgoingMessage,
      isPrivate := true }

/-- Source: `(*ChatwootAPI).SendAttachmentMessage`.  A failure to build the
multipart body or the request is `requestError`; an empty MIME type is sent as
`application/octet-stream`. -/
def SendAttachmentMessage (ep : Endpoints) (conversationID : ConversationID)
    (filename : String) (mimeType : String) (fileData : List Nat)
    (messageType : MessageType) : Except String Message :=
  match ep.postAttachment conversationID filename
      (if mimeType ≠ "" then mimeType else "application/octet-stream") fileData
      (MessageTypeString messageType) with
  | .requestError err => .error err
  | .transportError err => .error err
  | .response StatusCode decoded =>
    if StatusCode ≠ 200 then
      .error ("POST conversations/" ++ toString conversationID ++
        "/messages returned non-200 status code: " ++ toString StatusCode)
    else
      match decoded with
      | .error err => .error err
      | .ok message => .ok message

/-- Source: `(*ChatwootAPI).DownloadAttachment`. -/
def DownloadAttachment (ep : Endpoints) (url : String) : Except String (List Nat) :=
  match ep.getAttachment url with
  | .requestError err => .error err
  | .transportError err => .error err
  | .response StatusCode decoded =>
    if StatusCode ≠ 200 then
      .error ("GET attachment returned non-200 status code: " ++ toString StatusCode)
    else
      match decoded with
      | .error err => .error err
      | .ok data => .ok data

/-- Source: `(*ChatwootAPI).DeleteMessage`. -/
def DeleteMessage (ep : Endpoints) (conversationID : ConversationID) (messageID : MessageID) :
    Option String :=
  match ep.deleteMessage conversationID messageID with
  | .requestError err => some err
  | .transportError err => some err
  | .response StatusCode _ =>
    if StatusCode ≠ 200 then
      some ("GET attachment returned non-200 status code: " ++ toString StatusCode)
    else
      none

/-- Alice's contact on the sample platform. -/
def aliceContact : Contact :=
  { ID := 7, Email := "@alice:example.org", Identifier := "@alice:example.org" }

/-- A contact whose identifier only starts like Alice's. -/
def aliceLookalike : Contact :=
  { ID := 9, Email := "@alice:example.org.evil.net",
    Identifier := "@alice:example.org.evil.net" }

/-- A platform that answers every request the way Chatwoot answers a valid one,
with the status code given for the requests that create or delete something
and 200 for the others. -/
def endpointsAnswering (created deleted : Nat) : Endpoints :=
  { postContacts := fun _ => .response created (.ok { Payload := { Contact := aliceContact } }),
    getContactsSearch := fun _ =>
      .response 200 (.ok { Payload := [aliceLookalike, aliceContact] }),
    postConversations := fun _ _ _ _ => .response created (.ok sampleConversation),
    postLabels := fun _ _ => .response 200 (.ok ()),
    postCustomAttributes := fun _ _ => .response 200 (.ok ()),
    postMessages := fun _ _ =>
      .response created (.ok { ID := 1001, Content := some "hello", Private := false }),
    postAttachment := fun _ _ _ _ _ =>
      .response created (.ok { ID := 1002, Content := none, Private := false }),
    getAttachment := fun _ => .response 200 (.ok [1, 2, 3]),
    deleteMessage := fun _ _ => .response deleted (.ok ()) }

/-! ## The startup backfill -/

/-- What the backfill goroutine of `main` calls: the store, the homeserver
(`client.JoinedRooms`, `client.Messages`) and `GetOrCreateChatwootConversation`,
a function of this repository whose body is outside the files modelled here
and which is therefore a parameter.  The type `σ` is the state of everything
these calls read and change. -/
structure BackfillEnv (σ : Type) where
  stateStore : σ → Database
  JoinedRooms : σ → Except String (List RoomID)
  /-- The call `client.Messages(roomID, "", "", mautrix.DirectionBackward, nil, 50)`:
  the chunk, most recent event first. -/
  Messages : σ → RoomID → Except String (List Event)
  GetOrCreateChatwootConversation : σ → RoomID → Event → Except String Int × σ

/-- The steps of the backfill, as they appear in its trace. -/
inductive BackfillStep where
  /-- The lookup of the room's conversation; `found` is `err == nil`. -/
  | lookup (roomID : RoomID) (found : Bool)
  /-- The fetch of the room's history; `ok` is `err == nil`. -/
  | messages (roomID : RoomID) (ok : Bool)
  /-- A call of `GetOrCreateChatwootConversation(ctx, roomID, evt)`; `ok` is
  `err == nil`. -/
  | resolve (roomID : RoomID) (evt : Event) (ok : Bool)
  /-- The warning "No messages found for room suitable for creating
  conversation". -/
  | noSuitableMessage (roomID : RoomID)
  deriving DecidableEq, Repr

/-- An event the inner loop does not skip: its type is message or encrypted. -/
def isSuitable (evt : Event) : Bool :=
  !(decide (evt.Type_ ≠ .EventMessage) && decide (evt.Type_ ≠ .EventEncrypted))

/-- Source: the inner loop `for _, evt := range messages.Chunk` of the
backfill.  An event of another type is skipped; after a failed
`GetOrCreateChatwootConversation` the plain `continue` goes on with the next
event of the chunk; after a successful one `continue joinedRoomsLoop` leaves
the loop.  The last component says whether the loop was left that way. -/
def backfillChunk {σ : Type} (env : BackfillEnv σ) (roomID : RoomID) :
    σ → List Event → List BackfillStep × σ × Bool
  | s, [] => ([], s, false)
  | s, evt :: rest =>
    if evt.Type_ ≠ .EventMessage ∧ evt.Type_ ≠ .EventEncrypted then
      backfillChunk env roomID s rest
    else
      match env.GetOrCreateChatwootConversation s roomID evt with
      | (.error _, s2) =>
        match backfillChunk env roomID s2 rest with
        | (steps, s3, created) => (.resolve roomID evt false :: steps, s3, created)
      | (.ok _, s2) => ([.resolve roomID evt true], s2, true)

/-- Source: the body of `joinedRoomsLoop` for one room. -/
def backfillRoom {σ : Type} (env : BackfillEnv σ) (s : σ) (roomID : RoomID) :
    List BackfillStep × σ :=
  match GetChatwootConversationIDFromMatrixRoom (env.stateStore s) roomID with
  | (_, none) => ([.lookup roomID true], s)
  | (_, some _) =>
    match env.Messages s roomID with
    | .error _ => ([.lookup roomID false, .messages roomID false], s)
    | .ok chunk =>
      match backfillChunk env roomID s chunk with
      | (steps, s2, true) => (.lookup roomID false :: .messages roomID true :: steps, s2)
      | (steps, s2, false) =>
        (.lookup roomID false :: .messages roomID true :: steps ++ [.noSuitableMessage roomID],
          s2)

/-- Source: `joinedRoomsLoop`, the loop over `joined.JoinedRooms`. -/
def backfillRooms {σ : Type} (env : BackfillEnv σ) : σ → List RoomID → List BackfillStep × σ
  | s, [] => ([], s)
  | s, roomID :: rest =>
    match backfillRoom env s roomID with
    | (steps, s2) =>
      match backfillRooms env s2 rest with
      | (more, s3) => (steps ++ more, s3)

/-- Source: the backfill goroutine of `main`.  The result `none` is the
`log.Fatal` after a failed `client.JoinedRooms()`. -/
def conversation_creation_backfill {σ : Type} (env : BackfillEnv σ) (s : σ) :
    Option (List BackfillStep × σ) :=
  match env.JoinedRooms s with
  | .error _ => none
  | .ok joined => some (backfillRooms env s joined)

/-- The calls of `GetOrCreateChatwootConversation` in a trace, in order: room,
event, and whether the call succeeded. -/
def attemptsOf : List BackfillStep → List (RoomID × Event × Bool)
  | [] => []
  | .resolve roomID evt ok :: rest => (roomID, evt, ok) :: attemptsOf rest
  | _ :: rest => attemptsOf rest

/-- The rooms a trace looked up, in order. -/
def roomsLookedUp : List BackfillStep → List RoomID
  | [] => []
  | .lookup roomID _ :: rest => roomID :: roomsLookedUp rest
  | _ :: rest => roomsLookedUp rest

/-- A membership event, the most recent event of the sample history. -/
def memberEvent : Event :=
  { Type_ := .other "m.room.member", Sender := "@help:example.org",
    RoomID := "!new:example.org", ID := "$m3", Content := "join" }

/-- The most recent message of the sample history. -/
def recentMessage : Event :=
  { Type_ := .EventEncrypted, Sender := "@bob:example.org", RoomID := "!new:example.org",
    ID := "$m2", Content := "ciphertext" }

/-- An older message of the sample history. -/
def olderMessage : Event :=
  { Type_ := .EventMessage, Sender := "@bob:example.org", RoomID := "!new:example.org",
    ID := "$m1", Content := "hi" }

/-- A sample world for the backfill: the state is the store; the bot is in the
mapped sample room, in a room whose history cannot be fetched, and in a new
room; the resolution fails for the event `$m2` and otherwise records
conversation 50. -/
def sampleBackfillEnv : BackfillEnv Database :=
  { stateStore := fun s => s,
    JoinedRooms := fun _ =>
      .ok ["!abc:example.org", "!gone:example.org", "!new:example.org"],
    Messages := fun _ roomID =>
      if roomID = "!new:example.org" then .ok [memberEvent, recentMessage, olderMessage]
      else .error "M_FORBIDDEN",
    GetOrCreateChatwootConversation := fun s roomID evt =>
      if evt.ID = "$m2" then (.error "contact could not be created", s)
      else (.ok 50, (UpdateConversationIdForRoom s roomID 50).2) }

/-! # Theorems -/

/-! ## Lookups in terms of the table -/

theorem QueryRow_ok_iff {α : Type} (store : Database) (result : List α) (a : α) :
    QueryRow store result = .ok a ↔ store.faults.queryErr = none ∧ result.head? = some a := by
  unfold QueryRow
  cases h : store.faults.queryErr with
  | some err => simp
  | none =>
    cases result with
    | nil => simp
    | cons b rest => simp

/-- The lookup by room succeeds exactly when the query goes through and the
first row of the room carries the conversation id. -/
theorem GetChatwootConversationIDFromMatrixRoom_ok_iff (store : Database) (roomID : RoomID)
    (c : Int) :
    GetChatwootConversationIDFromMatrixRoom store roomID = (c, none) ↔
      store.faults.queryErr = none ∧
      ((store.tables.chatwoot_conversation_to_matrix_room.filter
          fun row => decide (row.matrix_room_id = roomID)).map
        fun row => row.chatwoot_conversation_id).head? = some c := by
  unfold GetChatwootConversationIDFromMatrixRoom
  rw [← QueryRow_ok_iff]
  cases h : QueryRow store _ with
  | error err => simp
  | ok a => simp

/-! ## Key sharing -/

/-- C1: `AllowKeyShare` returns nil (ALLOW) if and only if the device's user id
is the bot's configured username, or the store maps the requested room to a
conversation, the platform fetch of that conversation succeeds, and the
identifier of the conversation's contact is the device's user id; in every
other case it returns the rejection `KeyShareRejectNoResponse`. -/
theorem AllowKeyShare_decision (g : Globals) (device : Device) (info : RequestedKeyInfo) :
    (AllowKeyShare g device info = none ↔
      (device.UserID = g.configuration.Username ∨
        ∃ conversationID conversation,
          GetChatwootConversationIDFromMatrixRoom g.stateStore info.RoomID
            = (conversationID, none) ∧
          GetChatwootConversation g.chatwootApi conversationID = .ok conversation ∧
          conversation.Meta.Sender.Identifier = device.UserID)) ∧
    (AllowKeyShare g device info ≠ none →
      AllowKeyShare g device info = some KeyShareRejectNoResponse) := by
  unfold AllowKeyShare
  by_cases hu : device.UserID = g.configuration.Username
  · simp [hu]
  · simp only [hu, if_false, false_or]
    rcases hl : GetChatwootConversationIDFromMatrixRoom g.stateStore info.RoomID with ⟨c, e⟩
    cases e with
    | some err => simp
    | none =>
      simp only
      cases hc : GetChatwootConversation g.chatwootApi c with
      | error err =>
        simp only []
        refine ⟨⟨fun h => (by cases h), ?_⟩, fun _ => trivial⟩
        rintro ⟨c2, conv, h1, h2, _⟩
        have hcc : c2 = c := by cases h1; rfl
        subst hcc
        rw [hc] at h2
        cases h2
      | ok conversation =>
        simp only
        by_cases hi : conversation.Meta.Sender.Identifier = device.UserID
        · simp only [hi, if_true]
          exact ⟨⟨fun _ => ⟨c, conversation, rfl, hc, hi⟩, fun _ => trivial⟩,
            fun h => absurd rfl h⟩
        · simp only [hi, if_false]
          refine ⟨⟨fun h => (by cases h), ?_⟩, fun _ => trivial⟩
          rintro ⟨c2, conv, h1, h2, h3⟩
          have hcc : c2 = c := by cases h1; rfl
          subst hcc
          rw [hc] at h2
          cases h2
          exact absurd h3 hi

/-- C1 at the sample bot: Alice's device is allowed the keys of her room,
Mallory's device is rejected. -/
theorem AllowKeyShare_decision_witness :
    AllowKeyShare sampleGlobals aliceDevice sampleKeyInfo = none ∧
    AllowKeyShare sampleGlobals malloryDevice sampleKeyInfo = some KeyShareRejectNoResponse :=
  ⟨(AllowKeyShare_decision sampleGlobals aliceDevice sampleKeyInfo).1.2
      (Or.inr ⟨42, sampleConversation, by decide, rfl, by decide⟩),
   (AllowKeyShare_decision sampleGlobals malloryDevice sampleKeyInfo).2 (by decide)⟩

/-- C2: the decision of `AllowKeyShare` depends on the device's user id, the
bot's username, the store's mapping of the requested room and the platform's
record of the mapped conversation only: two requests that agree on these get
the same answer, whatever the other fields of the device, of the requested key
and of the configuration, and whatever else the store and the platform hold. -/
theorem AllowKeyShare_depends_only (g1 g2 : Globals) (device1 device2 : Device)
    (info1 info2 : RequestedKeyInfo)
    (huser : device1.UserID = device2.UserID)
    (hbot : g1.configuration.Username = g2.configuration.Username)
    (hmap : GetChatwootConversationIDFromMatrixRoom g1.stateStore info1.RoomID =
      GetChatwootConversationIDFromMatrixRoom g2.stateStore info2.RoomID)
    (hplatform : ∀ c, GetChatwootConversationIDFromMatrixRoom g1.stateStore info1.RoomID
        = (c, none) →
      GetChatwootConversation g1.chatwootApi c = GetChatwootConversation g2.chatwootApi c) :
    AllowKeyShare g1 device1 info1 = AllowKeyShare g2 device2 info2 := by
  unfold AllowKeyShare
  rw [← hmap, ← hbot, ← huser]
  by_cases hu : device1.UserID = g1.configuration.Username
  · simp [hu]
  · simp only [hu, if_false]
    rcases hl : GetChatwootConversationIDFromMatrixRoom g1.stateStore info1.RoomID with ⟨c, e⟩
    cases e with
    | some err => rfl
    | none =>
      simp only
      rw [← hplatform c hl]

/-- C2 at two requests of Alice for the sample room that differ in the device
id, the keys, the algorithm, the sender key and the session id. -/
theorem AllowKeyShare_depends_only_witness :
    aliceDevice ≠ aliceOtherDevice ∧ sampleKeyInfo ≠ otherKeyInfo ∧
    AllowKeyShare sampleGlobals aliceDevice sampleKeyInfo =
      AllowKeyShare otherGlobals aliceOtherDevice otherKeyInfo :=
  ⟨by decide, by decide,
   AllowKeyShare_depends_only sampleGlobals otherGlobals aliceDevice aliceOtherDevice
     sampleKeyInfo otherKeyInfo rfl rfl (by decide)
     (fun c hc => by
       have h42 : c = 42 := by
         have h : GetChatwootConversationIDFromMatrixRoom sampleGlobals.stateStore
             sampleKeyInfo.RoomID = ((42 : Int), none) := by decide
         rw [h] at hc
         exact ((Prod.mk.injEq _ _ _ _).mp hc).1.symm
       subst h42
       rfl)⟩

/-! ## Sender authorization -/

/-- C3: with `AllowMessagesFromUsersOnOtherHomeservers` unset,
`VerifyFromAuthorizedUser` accepts a sender exactly when the sender id parses
as a user id whose homeserver is `botHomeserver` (an id that does not parse is
rejected); with the flag set it accepts every sender, also one that does not
parse. -/
theorem VerifyFromAuthorizedUser_decision (lib : Mautrix) (g : Globals) (sender : UserID) :
    (g.configuration.AllowMessagesFromUsersOnOtherHomeservers = false →
      ((VerifyFromAuthorizedUser lib g sender = true ↔
          ∃ localpart homeserver,
            lib.Parse sender = .ok (localpart, homeserver) ∧ homeserver = g.botHomeserver) ∧
        (∀ err, lib.Parse sender = .error err →
          VerifyFromAuthorizedUser lib g sender = false))) ∧
    (g.configuration.AllowMessagesFromUsersOnOtherHomeservers = true →
      VerifyFromAuthorizedUser lib g sender = true) := by
  unfold VerifyFromAuthorizedUser
  refine ⟨fun hflag => ?_, fun hflag => by simp [hflag]⟩
  simp only [hflag, Bool.false_eq_true, if_false]
  cases hp : lib.Parse sender with
  | error err =>
    simp
  | ok parsed =>
    obtain ⟨localpart, homeserver⟩ := parsed
    simp only [decide_eq_true_eq, Except.ok.injEq, Prod.mk.injEq, reduceCtorEq, false_implies,
      implies_true, and_true]
    constructor
    · intro h
      exact ⟨localpart, homeserver, ⟨rfl, rfl⟩, h.symm⟩
    · rintro ⟨l2, h2, ⟨_, hh⟩, hb⟩
      rw [hh, hb]

/-- C3 at the sample bot: a sender of the bot's homeserver is accepted, and
with the flag set a sender that is no user id is accepted too. -/
theorem VerifyFromAuthorizedUser_decision_witness :
    VerifyFromAuthorizedUser mautrix sampleGlobals "@alice:example.org" = true ∧
    VerifyFromAuthorizedUser mautrix sampleGlobals "not a user id" = false ∧
    VerifyFromAuthorizedUser mautrix openGlobals "not a user id" = true :=
  ⟨((VerifyFromAuthorizedUser_decision mautrix sampleGlobals "@alice:example.org").1 rfl).1.2
      ⟨"alice", "example.org", rfl, rfl⟩,
   ((VerifyFromAuthorizedUser_decision mautrix sampleGlobals "not a user id").1 rfl).2
      "is not a valid user ID" rfl,
   (VerifyFromAuthorizedUser_decision mautrix openGlobals "not a user id").2 rfl⟩

/-! ## The writers -/

/-- The writers case by case: a failed `Begin` is a panic; a failed `Exec`
(connection or constraint) and a failed `Commit` return the error and leave
the store as it was; otherwise the statement's effect is installed. -/
theorem writeInTx_eq (store : Database) (s : Stmt) :
    writeInTx store s =
      match store.faults.beginErr with
      | some _ => (.panicked, store)
      | none =>
        match store.faults.execErr with
        | some err => (.returned (some err), store)
        | none =>
          match s.run store.tables with
          | .error err => (.returned (some err), store)
          | .ok t =>
            match store.faults.commitErr with
            | some err => (.returned (some err), store)
            | none => (.returned none, { store with tables := t }) := by
  unfold writeInTx Database.Begin
  cases hb : store.faults.beginErr with
  | some err => simp [Rollback]
  | none =>
    simp only [Tx.Exec]
    cases he : store.faults.execErr with
    | some err => simp [Rollback]
    | none =>
      simp only
      cases hr : s.run store.tables with
      | error err => simp [Rollback]
      | ok t =>
        simp only [Tx.Commit]
        cases hc : store.faults.commitErr with
        | some err => rfl
        | none => rfl

/-- No writer changes the health of the connection. -/
theorem writeInTx_faults (store : Database) (s : Stmt) :
    (writeInTx store s).2.faults = store.faults := by
  rw [writeInTx_eq]
  cases store.faults.beginErr <;> cases store.faults.execErr <;>
    cases s.run store.tables <;> cases store.faults.commitErr <;> rfl

/-- A writer that does not succeed leaves the store as it was. -/
theorem writeInTx_unchanged_of_ne (store : Database) (s : Stmt)
    (h : (writeInTx store s).1 ≠ .returned none) : (writeInTx store s).2 = store := by
  rw [writeInTx_eq] at h ⊢
  cases hb : store.faults.beginErr <;> cases he : store.faults.execErr <;>
    cases hr : s.run store.tables <;> cases hc : store.faults.commitErr <;>
    simp_all

/-- A writer panics exactly when `Begin` fails. -/
theorem writeInTx_panicked_iff (store : Database) (s : Stmt) :
    (writeInTx store s).1 = .panicked ↔ store.faults.beginErr ≠ none := by
  rw [writeInTx_eq]
  cases hb : store.faults.beginErr <;> cases he : store.faults.execErr <;>
    cases hr : s.run store.tables <;> cases hc : store.faults.commitErr <;>
    simp

theorem setMostRecentEvent_room (roomID : RoomID) (e : EventID) (row : RoomRow) :
    (row.setMostRecentEvent roomID e).matrix_room_id = row.matrix_room_id := by
  unfold RoomRow.setMostRecentEvent
  split <;> rfl

theorem setMostRecentEvent_conversation (roomID : RoomID) (e : EventID) (row : RoomRow) :
    (row.setMostRecentEvent roomID e).chatwoot_conversation_id = row.chatwoot_conversation_id := by
  unfold RoomRow.setMostRecentEvent
  split <;> rfl

theorem setConversation_room (roomID : RoomID) (c : Int) (row : RoomRow) :
    (row.setConversation roomID c).matrix_room_id = row.matrix_room_id := by
  unfold RoomRow.setConversation
  split <;> rfl

theorem setConversation_event (roomID : RoomID) (c : Int) (row : RoomRow) :
    (row.setConversation roomID c).most_recent_event_id = row.most_recent_event_id := by
  unfold RoomRow.setConversation
  split <;> rfl

/-- The rows of a room keep their conversation ids under the UPDATE of the
most recent event. -/
theorem sqlUpdateMostRecentEvent_conversations (rows : List RoomRow) (roomID x : RoomID)
    (e : EventID) :
    ((sqlUpdateMostRecentEvent rows roomID e).filter
        fun row => decide (row.matrix_room_id = x)).map (fun row => row.chatwoot_conversation_id)
      = (rows.filter fun row => decide (row.matrix_room_id = x)).map
          fun row => row.chatwoot_conversation_id := by
  unfold sqlUpdateMostRecentEvent
  induction rows with
  | nil => rfl
  | cons a rest ih =>
    simp only [List.map_cons, List.filter_cons, setMostRecentEvent_room]
    by_cases hx : a.matrix_room_id = x
    · simp only [hx, decide_True, if_true, List.map_cons, setMostRecentEvent_conversation]
      rw [ih]
    · simp only [hx, decide_False, Bool.false_eq_true, if_false]
      exact ih

/-- The lookup by room gives the same answer before and after
`UpdateMostRecentEventIdForRoom`, whatever the outcome of the update. -/
theorem GetChatwootConversationID_after_UpdateMostRecent (store : Database) (roomID x : RoomID)
    (e : EventID) :
    GetChatwootConversationIDFromMatrixRoom (UpdateMostRecentEventIdForRoom store roomID e).2 x
      = GetChatwootConversationIDFromMatrixRoom store x := by
  unfold UpdateMostRecentEventIdForRoom
  rw [writeInTx_eq]
  cases hb : store.faults.beginErr <;> cases he : store.faults.execErr <;>
    cases hc : store.faults.commitErr <;> (simp only [Stmt.run]; try rfl)
  unfold GetChatwootConversationIDFromMatrixRoom QueryRow
  simp only [sqlUpdateMostRecentEvent_conversations]

/-! ## The event callbacks -/

/-- On a connection that starts transactions, the callback of each of the
three event types first calls `UpdateMostRecentEventIdForRoom` for the event
(once, whatever it returns), then checks the sender, and starts the handlers
exactly when the sender is authorized. -/
theorem eventCallback_of_begin_ok (handler : Handler) (lib : Mautrix) (g : Globals)
    (evt : Event) (hbegin : g.stateStore.faults.beginErr = none) :
    (eventCallback handler lib g evt).panicked = false ∧
    (eventCallback handler lib g evt).stateStore =
      (UpdateMostRecentEventIdForRoom g.stateStore evt.RoomID evt.ID).2 ∧
    (eventCallback handler lib g evt).calls =
      [.UpdateMostRecentEventIdForRoom evt.RoomID evt.ID,
       .VerifyFromAuthorizedUser evt.Sender] ++
      (if VerifyFromAuthorizedUser lib g evt.Sender then
        [.go .HandleBeeperClientInfo evt, .go handler evt] else []) ∧
    (Call.go handler evt ∈ (eventCallback handler lib g evt).calls ↔
      VerifyFromAuthorizedUser lib g evt.Sender = true) := by
  have hp : (UpdateMostRecentEventIdForRoom g.stateStore evt.RoomID evt.ID).1 ≠ .panicked := by
    intro h
    exact (writeInTx_panicked_iff _ _).mp h hbegin
  unfold eventCallback
  rcases hu : UpdateMostRecentEventIdForRoom g.stateStore evt.RoomID evt.ID with ⟨o, store⟩
  rw [hu] at hp
  cases o with
  | panicked => exact absurd rfl hp
  | returned err =>
    by_cases hv : VerifyFromAuthorizedUser lib g evt.Sender = true
    · simp [hv]
    · simp [hv]

/-- C4: the failing run.  The connection refuses to start a transaction, so
`UpdateMostRecentEventIdForRoom` calls `Rollback` on a nil transaction and
panics: the callback of a message event of an authorized sender ends there,
after the one call of the update, and `HandleMessage` is not started. -/
theorem router_panics_when_begin_fails :
    VerifyFromAuthorizedUser mautrix brokenGlobals aliceMessage.Sender = true ∧
    router mautrix brokenGlobals aliceMessage =
      some { calls := [.UpdateMostRecentEventIdForRoom "!abc:example.org" "$e2"],
             panicked := true, stateStore := brokenGlobals.stateStore } ∧
    ∀ run, router mautrix brokenGlobals aliceMessage = some run →
      Call.go .HandleMessage aliceMessage ∉ run.calls := by
  refine ⟨by decide, by decide, ?_⟩
  intro run hrun
  have h : router mautrix brokenGlobals aliceMessage =
      some { calls := [.UpdateMostRecentEventIdForRoom "!abc:example.org" "$e2"],
             panicked := true, stateStore := brokenGlobals.stateStore } := by decide
  rw [h] at hrun
  cases hrun
  decide

/-! ## The decrypt-error callback -/

/-- The update `UpdateMostRecentEventIdForRoom` on a connection where `Begin`, `Exec` and
`Commit` go through: it returns nil and the rows of the room carry the event
id. -/
theorem UpdateMostRecentEventIdForRoom_ok (store : Database) (roomID : RoomID) (e : EventID)
    (hb : store.faults.beginErr = none) (he : store.faults.execErr = none)
    (hc : store.faults.commitErr = none) :
    UpdateMostRecentEventIdForRoom store roomID e =
      (.returned none,
        { store with tables :=
            { store.tables with chatwoot_conversation_to_matrix_room :=
                (sqlUpdateMostRecentEvent store.tables.chatwoot_conversation_to_matrix_room
                  roomID e) } }) := by
  unfold UpdateMostRecentEventIdForRoom
  rw [writeInTx_eq, hb, he, hc]
  rfl

/-- A room without a row: the UPDATE touches nothing. -/
theorem sqlUpdateMostRecentEvent_of_no_row (rows : List RoomRow) (roomID : RoomID) (e : EventID)
    (h : ∀ row ∈ rows, row.matrix_room_id ≠ roomID) :
    sqlUpdateMostRecentEvent rows roomID e = rows := by
  unfold sqlUpdateMostRecentEvent
  conv_rhs => rw [← List.map_id rows]
  apply List.map_congr_left
  intro row hrow
  simp [RoomRow.setMostRecentEvent, h row hrow]

/-- The update `UpdateMostRecentEventIdForRoom` never changes the store of a room without
a row, whatever its outcome. -/
theorem UpdateMostRecentEventIdForRoom_of_no_row (store : Database) (roomID : RoomID)
    (e : EventID)
    (h : ∀ row ∈ store.tables.chatwoot_conversation_to_matrix_room,
      row.matrix_room_id ≠ roomID) :
    (UpdateMostRecentEventIdForRoom store roomID e).2 = store := by
  unfold UpdateMostRecentEventIdForRoom
  rw [writeInTx_eq]
  cases hb : store.faults.beginErr <;> cases he : store.faults.execErr <;>
    cases hc : store.faults.commitErr <;> (simp only [Stmt.run]; try rfl)
  rw [sqlUpdateMostRecentEvent_of_no_row _ _ _ h]

/-- C5, the counterexample: a decryption failure in a room that has no row.
The callback returns normally and the store holds no most recent event for the
room afterwards: the event id is not recorded. -/
theorem DecryptErrorCallback_records_nothing_without_row :
    (DecryptErrorCallback mautrix freshGlobals aliceEncrypted (some "no session")).panicked
      = false ∧
    mostRecentEventOf
      (DecryptErrorCallback mautrix freshGlobals aliceEncrypted (some "no session")).stateStore
      aliceEncrypted.RoomID ≠ some aliceEncrypted.ID := by
  decide

/-- C5, as amended: on a connection that starts transactions, the decrypt-error
callback returns normally; it calls `UpdateMostRecentEventIdForRoom` for the
event before it checks the sender, and the store it leaves is the one that call
leaves: when `Exec` and `Commit` go through every row of the room carries the
event id, and when the room has no row nothing is recorded; it hands a private
message to `DoRetry` for conversation `c` if and only if the sender is
authorized and the lookup of the room's conversation succeeds with `c` (so
nothing is sent when the lookup fails, and the message goes to the mapped
conversation only). -/
theorem DecryptErrorCallback_decision (lib : Mautrix) (g : Globals) (evt : Event)
    (err : Option String) (hbegin : g.stateStore.faults.beginErr = none) :
    (DecryptErrorCallback lib g evt err).panicked = false ∧
    (DecryptErrorCallback lib g evt err).calls.take 3 =
      [.logError err "Failed to decrypt message",
       .UpdateMostRecentEventIdForRoom evt.RoomID evt.ID,
       .VerifyFromAuthorizedUser evt.Sender] ∧
    (DecryptErrorCallback lib g evt err).stateStore =
      (UpdateMostRecentEventIdForRoom g.stateStore evt.RoomID evt.ID).2 ∧
    (g.stateStore.faults.execErr = none → g.stateStore.faults.commitErr = none →
      ∀ row ∈ (DecryptErrorCallback lib g evt err).stateStore.tables.chatwoot_conversation_to_matrix_room,
        row.matrix_room_id = evt.RoomID → row.most_recent_event_id = some evt.ID) ∧
    ((∀ row ∈ g.stateStore.tables.chatwoot_conversation_to_matrix_room,
        row.matrix_room_id ≠ evt.RoomID) →
      (DecryptErrorCallback lib g evt err).stateStore = g.stateStore) ∧
    (∀ c, (∃ label content,
          Call.DoRetrySendPrivateMessage label c content ∈
            (DecryptErrorCallback lib g evt err).calls) ↔
        (VerifyFromAuthorizedUser lib g evt.Sender = true ∧
          GetChatwootConversationIDFromMatrixRoom g.stateStore evt.RoomID = (c, none))) := by
  have hp : (UpdateMostRecentEventIdForRoom g.stateStore evt.RoomID evt.ID).1 ≠ .panicked := by
    intro h
    exact (writeInTx_panicked_iff _ _).mp h hbegin
  have hget := GetChatwootConversationID_after_UpdateMostRecent g.stateStore evt.RoomID
    evt.RoomID evt.ID
  have hrec : g.stateStore.faults.execErr = none → g.stateStore.faults.commitErr = none →
      ∀ row ∈ (UpdateMostRecentEventIdForRoom g.stateStore evt.RoomID
          evt.ID).2.tables.chatwoot_conversation_to_matrix_room,
        row.matrix_room_id = evt.RoomID → row.most_recent_event_id = some evt.ID := by
    intro he hc row hrow hroom
    rw [UpdateMostRecentEventIdForRoom_ok _ _ _ hbegin he hc] at hrow
    simp only [sqlUpdateMostRecentEvent, List.mem_map] at hrow
    obtain ⟨old, _, hold⟩ := hrow
    subst hold
    rw [setMostRecentEvent_room] at hroom
    simp [RoomRow.setMostRecentEvent, hroom]
  have hnone := UpdateMostRecentEventIdForRoom_of_no_row g.stateStore evt.RoomID evt.ID
  unfold DecryptErrorCallback
  rcases hu : UpdateMostRecentEventIdForRoom g.stateStore evt.RoomID evt.ID with ⟨o, store⟩
  rw [hu] at hp hget hrec hnone
  simp only at hget hrec hnone
  cases o with
  | panicked => exact absurd rfl hp
  | returned uerr =>
    simp only
    by_cases hv : VerifyFromAuthorizedUser lib g evt.Sender = true
    · simp only [hv, Bool.not_true, Bool.false_eq_true, if_false, true_and]
      rw [hget]
      rcases hl : GetChatwootConversationIDFromMatrixRoom g.stateStore evt.RoomID with ⟨c0, dbErr⟩
      cases dbErr with
      | some e2 =>
        refine ⟨rfl, rfl, rfl, hrec, hnone, ?_⟩
        intro c
        simp
      | none =>
        refine ⟨rfl, rfl, rfl, hrec, hnone, ?_⟩
        intro c
        simp only [Option.map_none', Option.isSome_none, Bool.false_eq_true, if_false]
        constructor
        · rintro ⟨label, content, hmem⟩
          simp at hmem
          rw [hmem.2.1]
        · intro h
          have hc : c0 = c := (Prod.mk.injEq _ _ _ _).mp h |>.1
          subst hc
          exact ⟨_, _, List.mem_append_right _ (List.mem_singleton.mpr rfl)⟩
    · simp only [hv, Bool.false_eq_true, Bool.not_false, if_true, false_and, iff_false,
        not_exists]
      refine ⟨trivial, rfl, trivial, hrec, hnone, ?_⟩
      intro c label content hmem
      simp at hmem

/-- C5 as amended, at the sample bot: the transaction starts, Alice is
authorized and her room is mapped to conversation 42, so the private message
for conversation 42 is handed to `DoRetry`. -/
theorem DecryptErrorCallback_decision_witness :
    sampleGlobals.stateStore.faults.beginErr = none ∧
    ∃ label content, Call.DoRetrySendPrivateMessage label 42 content ∈
      (DecryptErrorCallback mautrix sampleGlobals aliceEncrypted (some "no session")).calls :=
  ⟨rfl,
   ((DecryptErrorCallback_decision mautrix sampleGlobals aliceEncrypted (some "no session")
      rfl).2.2.2.2.2 42).mpr ⟨by decide, by decide⟩⟩

/-! ## The UNIQUE constraints of the room table -/

/-- What a successful upsert knows about the table it ran on: no row of another
room carries the conversation id. -/
theorem sqlUpsertConversation_ok_no_clash (rows rows2 : List RoomRow) (roomID : RoomID) (c : Int)
    (h : sqlUpsertConversation rows roomID c = .ok rows2) :
    ∀ row ∈ rows, row.matrix_room_id ≠ roomID → row.chatwoot_conversation_id ≠ c := by
  unfold sqlUpsertConversation at h
  split at h
  · cases h
  · rename_i hclash
    intro row hrow hroom hconv
    apply hclash
    rw [List.any_eq_true]
    exact ⟨row, hrow, by simp [hroom, hconv]⟩

/-- A successful upsert either rewrites the rows of the room (the room has a
row) or appends a row (the room has none). -/
theorem sqlUpsertConversation_ok_cases (rows rows2 : List RoomRow) (roomID : RoomID) (c : Int)
    (h : sqlUpsertConversation rows roomID c = .ok rows2) :
    ((∃ row ∈ rows, row.matrix_room_id = roomID) ∧
        rows2 = rows.map (RoomRow.setConversation roomID c)) ∨
    ((∀ row ∈ rows, row.matrix_room_id ≠ roomID) ∧
        rows2 = rows ++ [{ matrix_room_id := roomID, chatwoot_conversation_id := c,
                           most_recent_event_id := none }]) := by
  unfold sqlUpsertConversation at h
  split at h
  · cases h
  · split at h
    · rename_i hex
      left
      rw [List.any_eq_true] at hex
      obtain ⟨row, hrow, hroom⟩ := hex
      refine ⟨⟨row, hrow, by simpa using hroom⟩, ?_⟩
      cases h
      rfl
    · rename_i hex
      right
      refine ⟨?_, ?_⟩
      · intro row hrow hroom
        apply hex
        rw [List.any_eq_true]
        exact ⟨row, hrow, by simp [hroom]⟩
      · cases h
        rfl

/-- The upsert keeps the UNIQUE constraints. -/
theorem RoomsValid_upsert (rows rows2 : List RoomRow) (roomID : RoomID) (c : Int)
    (hv : RoomsValid rows) (h : sqlUpsertConversation rows roomID c = .ok rows2) :
    RoomsValid rows2 := by
  have hclash := sqlUpsertConversation_ok_no_clash rows rows2 roomID c h
  rcases sqlUpsertConversation_ok_cases rows rows2 roomID c h with ⟨_, hrows⟩ | ⟨hno, hrows⟩
  · subst hrows
    unfold RoomsValid
    rw [List.pairwise_map]
    refine List.Pairwise.imp_of_mem ?_ hv
    intro a b ha hb hab
    simp only [setConversation_room]
    refine ⟨hab.1, ?_⟩
    unfold RoomRow.setConversation
    by_cases har : a.matrix_room_id = roomID
    · have hbr : b.matrix_room_id ≠ roomID := fun hbr => hab.1 (har.trans hbr.symm)
      simp only [har, hbr, if_true, if_false]
      exact fun heq => hclash b hb hbr heq.symm
    · by_cases hbr : b.matrix_room_id = roomID
      · simp only [har, hbr, if_true, if_false]
        exact hclash a ha har
      · simp only [har, hbr, if_false]
        exact hab.2
  · subst hrows
    unfold RoomsValid
    rw [List.pairwise_append]
    refine ⟨hv, List.pairwise_singleton _ _, ?_⟩
    intro a ha b hb
    rw [List.mem_singleton] at hb
    subst hb
    exact ⟨hno a ha, hclash a ha (hno a ha)⟩

/-- The UPDATE of the most recent event keeps the UNIQUE constraints. -/
theorem RoomsValid_updateMostRecentEvent (rows : List RoomRow) (roomID : RoomID) (e : EventID)
    (hv : RoomsValid rows) : RoomsValid (sqlUpdateMostRecentEvent rows roomID e) := by
  unfold RoomsValid sqlUpdateMostRecentEvent
  rw [List.pairwise_map]
  refine List.Pairwise.imp ?_ hv
  intro a b hab
  simpa only [setMostRecentEvent_room, setMostRecentEvent_conversation] using hab

/-- Every statement keeps the UNIQUE constraints of the room table. -/
theorem RoomsValid_run (t t2 : Tables) (s : Stmt)
    (hv : RoomsValid t.chatwoot_conversation_to_matrix_room) (h : s.run t = .ok t2) :
    RoomsValid t2.chatwoot_conversation_to_matrix_room := by
  cases s with
  | updateMostRecentEvent r e =>
    simp only [Stmt.run, Except.ok.injEq] at h
    subst h
    exact RoomsValid_updateMostRecentEvent _ r e hv
  | upsertConversation r c =>
    simp only [Stmt.run] at h
    cases hu : sqlUpsertConversation t.chatwoot_conversation_to_matrix_room r c with
    | error err => rw [hu] at h; cases h
    | ok rows =>
      rw [hu] at h
      simp only [Except.ok.injEq] at h
      subst h
      exact RoomsValid_upsert _ _ r c hv hu
  | insertMessage e m =>
    simp only [Stmt.run] at h
    cases hu : sqlInsertMessage t.chatwoot_message_to_matrix_event e m with
    | error err => rw [hu] at h; cases h
    | ok rows =>
      rw [hu] at h
      simp only [Except.ok.injEq] at h
      subst h
      exact hv

/-- The tables a writer leaves: the old ones, or the result of its statement. -/
theorem writeInTx_tables (store : Database) (s : Stmt) :
    (writeInTx store s).2.tables = store.tables ∨
      s.run store.tables = .ok (writeInTx store s).2.tables := by
  rw [writeInTx_eq]
  cases hb : store.faults.beginErr <;> cases he : store.faults.execErr <;>
    cases hr : s.run store.tables <;> cases hc : store.faults.commitErr <;>
    simp

/-- Every writer keeps the UNIQUE constraints of the room table, whatever its
outcome. -/
theorem RoomsValid_writeInTx (store : Database) (s : Stmt)
    (hv : RoomsValid store.tables.chatwoot_conversation_to_matrix_room) :
    RoomsValid (writeInTx store s).2.tables.chatwoot_conversation_to_matrix_room := by
  rcases writeInTx_tables store s with h | h
  · rw [h]; exact hv
  · exact RoomsValid_run _ _ s hv h

/-- Every step of a history keeps the UNIQUE constraints of the room table. -/
theorem RoomsValid_apply (store : Database) (op : StoreOp)
    (hv : RoomsValid store.tables.chatwoot_conversation_to_matrix_room) :
    RoomsValid (op.apply store).tables.chatwoot_conversation_to_matrix_room := by
  cases op with
  | UpdateConversationIdForRoom r c => exact RoomsValid_writeInTx store _ hv
  | UpdateMostRecentEventIdForRoom r e => exact RoomsValid_writeInTx store _ hv
  | SetChatwootMessageIdForMatrixEvent e m => exact RoomsValid_writeInTx store _ hv
  | setFaults f => exact hv

/-- A history keeps the UNIQUE constraints of the room table. -/
theorem RoomsValid_runOps (ops : List StoreOp) (store : Database)
    (hv : RoomsValid store.tables.chatwoot_conversation_to_matrix_room) :
    RoomsValid (runOps store ops).tables.chatwoot_conversation_to_matrix_room := by
  induction ops generalizing store with
  | nil => exact hv
  | cons op rest ih =>
    simp only [runOps, List.foldl_cons]
    exact ih _ (RoomsValid_apply store op hv)

/-- The store reached from the empty tables satisfies the UNIQUE constraints. -/
theorem RoomsValid_reachable (f : Faults) (ops : List StoreOp) :
    RoomsValid (runOps (Database.empty f) ops).tables.chatwoot_conversation_to_matrix_room :=
  RoomsValid_runOps ops _ List.Pairwise.nil

/-! ## Lookups on a table that satisfies the UNIQUE constraints -/

theorem head?_filter_mem {α : Type} (p : α → Bool) (l : List α) (a : α)
    (h : (l.filter p).head? = some a) : a ∈ l ∧ p a = true := by
  have hm : a ∈ l.filter p := List.mem_of_mem_head? (by rw [h]; exact rfl)
  exact List.mem_filter.mp hm

/-- In a valid table the rows of a room id are that one row. -/
theorem head?_filter_room_of_valid (rows : List RoomRow) (hv : RoomsValid rows) (row : RoomRow)
    (hrow : row ∈ rows) :
    (rows.filter fun x => decide (x.matrix_room_id = row.matrix_room_id)).head? = some row := by
  cases hh : (rows.filter fun x => decide (x.matrix_room_id = row.matrix_room_id)).head? with
  | none =>
    rw [List.head?_eq_none_iff] at hh
    have hm : row ∈ rows.filter fun x => decide (x.matrix_room_id = row.matrix_room_id) :=
      List.mem_filter.mpr ⟨hrow, by simp⟩
    rw [hh] at hm
    cases hm
  | some x =>
    obtain ⟨hx, hp⟩ := head?_filter_mem _ _ _ hh
    have hroom : x.matrix_room_id = row.matrix_room_id := by simpa using hp
    by_cases hxr : x = row
    · rw [hxr]
    · have hsym : Symmetric fun a b : RoomRow =>
          a.matrix_room_id ≠ b.matrix_room_id ∧
            a.chatwoot_conversation_id ≠ b.chatwoot_conversation_id :=
        fun a b hab => ⟨fun h => hab.1 h.symm, fun h => hab.2 h.symm⟩
      exact absurd hroom (List.Pairwise.forall hsym hv hx hrow hxr).1

/-- In a valid table the rows of a conversation id are that one row. -/
theorem head?_filter_conversation_of_valid (rows : List RoomRow) (hv : RoomsValid rows)
    (row : RoomRow) (hrow : row ∈ rows) :
    (rows.filter fun x =>
        decide (x.chatwoot_conversation_id = row.chatwoot_conversation_id)).head? = some row := by
  cases hh : (rows.filter fun x =>
      decide (x.chatwoot_conversation_id = row.chatwoot_conversation_id)).head? with
  | none =>
    rw [List.head?_eq_none_iff] at hh
    have hm : row ∈ rows.filter fun x =>
        decide (x.chatwoot_conversation_id = row.chatwoot_conversation_id) :=
      List.mem_filter.mpr ⟨hrow, by simp⟩
    rw [hh] at hm
    cases hm
  | some x =>
    obtain ⟨hx, hp⟩ := head?_filter_mem _ _ _ hh
    have hconv : x.chatwoot_conversation_id = row.chatwoot_conversation_id := by simpa using hp
    by_cases hxr : x = row
    · rw [hxr]
    · have hsym : Symmetric fun a b : RoomRow =>
          a.matrix_room_id ≠ b.matrix_room_id ∧
            a.chatwoot_conversation_id ≠ b.chatwoot_conversation_id :=
        fun a b hab => ⟨fun h => hab.1 h.symm, fun h => hab.2 h.symm⟩
      exact absurd hconv (List.Pairwise.forall hsym hv hx hrow hxr).2

/-- The lookup by room on a valid table with a row of the room, when the query
goes through. -/
theorem GetChatwootConversationID_of_row (store : Database)
    (hv : RoomsValid store.tables.chatwoot_conversation_to_matrix_room)
    (hq : store.faults.queryErr = none) (row : RoomRow)
    (hrow : row ∈ store.tables.chatwoot_conversation_to_matrix_room) :
    GetChatwootConversationIDFromMatrixRoom store row.matrix_room_id =
      (row.chatwoot_conversation_id, none) := by
  rw [GetChatwootConversationIDFromMatrixRoom_ok_iff]
  refine ⟨hq, ?_⟩
  rw [List.head?_map, head?_filter_room_of_valid _ hv row hrow]
  rfl

/-- The lookup by conversation on a valid table with a row of the conversation,
when the query goes through. -/
theorem GetMatrixRoom_of_row (store : Database)
    (hv : RoomsValid store.tables.chatwoot_conversation_to_matrix_room)
    (hq : store.faults.queryErr = none) (row : RoomRow)
    (hrow : row ∈ store.tables.chatwoot_conversation_to_matrix_room) :
    GetMatrixRoomFromChatwootConversation store row.chatwoot_conversation_id =
      (row.matrix_room_id, row.most_recent_event_id.getD "", none) := by
  have hh : QueryRow store
      ((store.tables.chatwoot_conversation_to_matrix_room.filter
          fun x => decide (x.chatwoot_conversation_id = row.chatwoot_conversation_id)).map
        fun x => (x.matrix_room_id, x.most_recent_event_id))
      = .ok (row.matrix_room_id, row.most_recent_event_id) := by
    rw [QueryRow_ok_iff]
    refine ⟨hq, ?_⟩
    rw [List.head?_map, head?_filter_conversation_of_valid _ hv row hrow]
    rfl
  unfold GetMatrixRoomFromChatwootConversation
  rw [hh]
  cases row.most_recent_event_id <;> rfl

/-- A successful lookup by conversation found a row of the table. -/
theorem GetMatrixRoom_ok_row (store : Database) (c : Int) (r : RoomID) (e : EventID)
    (h : GetMatrixRoomFromChatwootConversation store c = (r, e, none)) :
    store.faults.queryErr = none ∧
    ∃ row ∈ store.tables.chatwoot_conversation_to_matrix_room,
      row.chatwoot_conversation_id = c ∧ row.matrix_room_id = r := by
  unfold GetMatrixRoomFromChatwootConversation at h
  cases hq : QueryRow store
      ((store.tables.chatwoot_conversation_to_matrix_room.filter
          fun x => decide (x.chatwoot_conversation_id = c)).map
        fun x => (x.matrix_room_id, x.most_recent_event_id)) with
  | error err =>
    rw [hq] at h
    simp at h
  | ok found =>
    rw [hq] at h
    obtain ⟨r0, m⟩ := found
    have hr : r0 = r := by
      cases m <;> simp at h <;> exact h.1
    subst hr
    rw [QueryRow_ok_iff, List.head?_map] at hq
    refine ⟨hq.1, ?_⟩
    cases hf : (store.tables.chatwoot_conversation_to_matrix_room.filter
        fun x => decide (x.chatwoot_conversation_id = c)).head? with
    | none => rw [hf] at hq; simp at hq
    | some row =>
      rw [hf] at hq
      obtain ⟨hmem, hp⟩ := head?_filter_mem _ _ _ hf
      refine ⟨row, hmem, by simpa using hp, ?_⟩
      have := hq.2
      simp at this
      exact this.1

/-- What a successful writer did: the connection let `Begin`, `Exec` and
`Commit` through and the statement's result is installed. -/
theorem writeInTx_ok (store store2 : Database) (s : Stmt)
    (h : writeInTx store s = (.returned none, store2)) :
    store.faults.beginErr = none ∧ store.faults.execErr = none ∧
    store.faults.commitErr = none ∧
    ∃ t, s.run store.tables = .ok t ∧ store2 = { store with tables := t } := by
  rw [writeInTx_eq] at h
  cases hb : store.faults.beginErr <;> cases he : store.faults.execErr <;>
    cases hr : s.run store.tables <;> cases hc : store.faults.commitErr <;>
    simp_all

/-- What a successful `UpdateConversationIdForRoom` did. -/
theorem UpdateConversationIdForRoom_ok (store store2 : Database) (roomID : RoomID) (c : Int)
    (h : UpdateConversationIdForRoom store roomID c = (.returned none, store2)) :
    store.faults.beginErr = none ∧ store.faults.execErr = none ∧
    store.faults.commitErr = none ∧
    ∃ rows, sqlUpsertConversation store.tables.chatwoot_conversation_to_matrix_room roomID c
          = .ok rows ∧
      store2 = { store with tables :=
        { store.tables with chatwoot_conversation_to_matrix_room := rows } } := by
  obtain ⟨hb, he, hc, t, ht, hs⟩ := writeInTx_ok store store2 _ h
  refine ⟨hb, he, hc, ?_⟩
  simp only [Stmt.run] at ht
  cases hu : sqlUpsertConversation store.tables.chatwoot_conversation_to_matrix_room roomID c with
  | error err => rw [hu] at ht; cases ht
  | ok rows =>
    rw [hu] at ht
    simp only [Except.ok.injEq] at ht
    subst ht
    exact ⟨rows, rfl, hs⟩

/-- After a successful upsert the table has a row of the room with the
conversation id. -/
theorem sqlUpsertConversation_ok_row (rows rows2 : List RoomRow) (roomID : RoomID) (c : Int)
    (h : sqlUpsertConversation rows roomID c = .ok rows2) :
    ∃ row ∈ rows2, row.matrix_room_id = roomID ∧ row.chatwoot_conversation_id = c := by
  rcases sqlUpsertConversation_ok_cases rows rows2 roomID c h with ⟨⟨row, hrow, hroom⟩, hrows⟩ |
    ⟨_, hrows⟩
  · subst hrows
    refine ⟨row.setConversation roomID c, List.mem_map.mpr ⟨row, hrow, rfl⟩, ?_, ?_⟩
    · rw [setConversation_room]; exact hroom
    · simp [RoomRow.setConversation, hroom]
  · subst hrows
    exact ⟨_, List.mem_append_right _ (List.mem_singleton.mpr rfl), rfl, rfl⟩

/-! ## Round trip, bijection, idempotence -/

/-- C6: in every store reached from the empty tables by the writers (and
changes of the connection's health), if the lookup by conversation `c` succeeds
with room `r`, then the lookup by room `r` succeeds with `c`; and right after a
successful `UpdateConversationIdForRoom(r, c)`, on a connection whose queries
go through, the lookup by room `r` gives `c` and the lookup by conversation `c`
gives `r`. -/
theorem conversation_room_round_trip (f : Faults) (ops : List StoreOp) (c : Int) (r : RoomID) :
    (∀ e, GetMatrixRoomFromChatwootConversation (runOps (Database.empty f) ops) c
        = (r, e, none) →
      GetChatwootConversationIDFromMatrixRoom (runOps (Database.empty f) ops) r = (c, none)) ∧
    (∀ store2, UpdateConversationIdForRoom (runOps (Database.empty f) ops) r c
        = (.returned none, store2) →
      store2.faults.queryErr = none →
      GetChatwootConversationIDFromMatrixRoom store2 r = (c, none) ∧
      ∃ e, GetMatrixRoomFromChatwootConversation store2 c = (r, e, none)) := by
  have hv := RoomsValid_reachable f ops
  constructor
  · intro e h
    obtain ⟨hq, row, hrow, hconv, hroom⟩ := GetMatrixRoom_ok_row _ c r e h
    have := GetChatwootConversationID_of_row _ hv hq row hrow
    rw [hroom, hconv] at this
    exact this
  · intro store2 h hq
    have hv2 : RoomsValid store2.tables.chatwoot_conversation_to_matrix_room := by
      have := RoomsValid_writeInTx (runOps (Database.empty f) ops) (.upsertConversation r c) hv
      unfold UpdateConversationIdForRoom at h
      rw [h] at this
      exact this
    obtain ⟨_, _, _, rows, hrows, hs⟩ := UpdateConversationIdForRoom_ok _ _ r c h
    obtain ⟨row, hrow, hroom, hconv⟩ := sqlUpsertConversation_ok_row _ _ r c hrows
    have hmem : row ∈ store2.tables.chatwoot_conversation_to_matrix_room := by
      rw [hs]; exact hrow
    have h1 := GetChatwootConversationID_of_row store2 hv2 hq row hmem
    have h2 := GetMatrixRoom_of_row store2 hv2 hq row hmem
    rw [hroom, hconv] at h1 h2
    exact ⟨h1, _, h2⟩

/-- C6 on the sample history: conversation 43 is found with its room, and the
room leads back to 43. -/
theorem conversation_room_round_trip_witness :
    GetMatrixRoomFromChatwootConversation (runOps (Database.empty Faults.healthy) sampleOps) 43
      = ("!xyz:example.org", "", none) ∧
    GetChatwootConversationIDFromMatrixRoom (runOps (Database.empty Faults.healthy) sampleOps)
      "!xyz:example.org" = (43, none) :=
  ⟨by decide,
   (conversation_room_round_trip Faults.healthy sampleOps 43 "!xyz:example.org").1 ""
     (by decide)⟩

/-- C7: in every store reached from the empty tables by the writers (whether
their calls succeed, fail or panic), no room id is in two rows and no
conversation id is in two rows; and `UpdateConversationIdForRoom(r2, c)` for a
conversation `c` that a row maps to another room `r1` does not succeed and
leaves the store as it was. -/
theorem mapping_stays_bijective (f : Faults) (ops : List StoreOp) :
    ((runOps (Database.empty f) ops).tables.chatwoot_conversation_to_matrix_room.map
        fun row => row.matrix_room_id).Nodup ∧
    ((runOps (Database.empty f) ops).tables.chatwoot_conversation_to_matrix_room.map
        fun row => row.chatwoot_conversation_id).Nodup ∧
    (∀ row ∈ (runOps (Database.empty f) ops).tables.chatwoot_conversation_to_matrix_room,
      ∀ r2, r2 ≠ row.matrix_room_id →
        (UpdateConversationIdForRoom (runOps (Database.empty f) ops) r2
            row.chatwoot_conversation_id).1 ≠ .returned none ∧
        (UpdateConversationIdForRoom (runOps (Database.empty f) ops) r2
            row.chatwoot_conversation_id).2 = runOps (Database.empty f) ops) := by
  have hv := RoomsValid_reachable f ops
  refine ⟨?_, ?_, ?_⟩
  · unfold List.Nodup
    rw [List.pairwise_map]
    exact hv.imp fun hab => hab.1
  · unfold List.Nodup
    rw [List.pairwise_map]
    exact hv.imp fun hab => hab.2
  · intro row hrow r2 hr2
    have hne : (UpdateConversationIdForRoom (runOps (Database.empty f) ops) r2
        row.chatwoot_conversation_id).1 ≠ .returned none := by
      intro hret
      have hpair : UpdateConversationIdForRoom (runOps (Database.empty f) ops) r2
          row.chatwoot_conversation_id = (.returned none, (UpdateConversationIdForRoom
            (runOps (Database.empty f) ops) r2 row.chatwoot_conversation_id).2) :=
        Prod.ext hret rfl
      obtain ⟨_, _, _, rows, hrows, _⟩ := UpdateConversationIdForRoom_ok _ _ r2 _ hpair
      exact sqlUpsertConversation_ok_no_clash _ _ r2 _ hrows row hrow (Ne.symm hr2) rfl
    exact ⟨hne, writeInTx_unchanged_of_ne _ _ hne⟩

/-- C7 on the sample history: moving conversation 42 to another room is
refused. -/
theorem mapping_stays_bijective_witness :
    (UpdateConversationIdForRoom (runOps (Database.empty Faults.healthy) sampleOps)
      "!new:example.org" 42).1 ≠ .returned none :=
  ((mapping_stays_bijective Faults.healthy sampleOps).2.2
    { matrix_room_id := "!abc:example.org", chatwoot_conversation_id := 42,
      most_recent_event_id := some "$e1" }
    (by decide) "!new:example.org" (by decide)).1

/-- The upsert on a table where no row of another room carries the
conversation id and the room has a row: the rows of the room are rewritten. -/
theorem sqlUpsertConversation_of_row (rows : List RoomRow) (roomID : RoomID) (c : Int)
    (hclash : ∀ row ∈ rows, row.matrix_room_id ≠ roomID → row.chatwoot_conversation_id ≠ c)
    (hex : ∃ row ∈ rows, row.matrix_room_id = roomID) :
    sqlUpsertConversation rows roomID c = .ok (rows.map (RoomRow.setConversation roomID c)) := by
  unfold sqlUpsertConversation
  have h1 : ¬ (rows.any fun row =>
      decide (row.matrix_room_id ≠ roomID ∧ row.chatwoot_conversation_id = c)) = true := by
    rw [List.any_eq_true]
    rintro ⟨row, hrow, hp⟩
    simp only [ne_eq, decide_eq_true_eq] at hp
    exact hclash row hrow hp.1 hp.2
  have h2 : (rows.any fun row => decide (row.matrix_room_id = roomID)) = true := by
    rw [List.any_eq_true]
    obtain ⟨row, hrow, hroom⟩ := hex
    exact ⟨row, hrow, by simp [hroom]⟩
  rw [if_neg h1, if_pos h2]

/-- Setting the conversation id of a room twice is setting it once. -/
theorem setConversation_setConversation (roomID : RoomID) (c : Int) (row : RoomRow) :
    (row.setConversation roomID c).setConversation roomID c = row.setConversation roomID c := by
  unfold RoomRow.setConversation
  by_cases h : row.matrix_room_id = roomID <;> simp [h]

/-- The upsert repeated on its own result changes nothing. -/
theorem sqlUpsertConversation_idempotent (rows rows1 : List RoomRow) (roomID : RoomID) (c : Int)
    (h : sqlUpsertConversation rows roomID c = .ok rows1) :
    sqlUpsertConversation rows1 roomID c = .ok rows1 := by
  have hclash := sqlUpsertConversation_ok_no_clash rows rows1 roomID c h
  obtain ⟨new, hnew, hnewroom, _⟩ := sqlUpsertConversation_ok_row rows rows1 roomID c h
  have hclash1 : ∀ row ∈ rows1, row.matrix_room_id ≠ roomID →
      row.chatwoot_conversation_id ≠ c := by
    rcases sqlUpsertConversation_ok_cases rows rows1 roomID c h with ⟨_, hrows⟩ | ⟨_, hrows⟩
    · subst hrows
      intro row hrow hroom
      obtain ⟨old, hold, hset⟩ := List.mem_map.mp hrow
      subst hset
      rw [setConversation_room] at hroom
      simp only [RoomRow.setConversation, hroom, if_false]
      exact hclash old hold hroom
    · subst hrows
      intro row hrow hroom
      rcases List.mem_append.mp hrow with hold | hlast
      · exact hclash row hold hroom
      · rw [List.mem_singleton] at hlast
        subst hlast
        exact absurd rfl hroom
  rw [sqlUpsertConversation_of_row rows1 roomID c hclash1 ⟨new, hnew, hnewroom⟩]
  congr 1
  rcases sqlUpsertConversation_ok_cases rows rows1 roomID c h with ⟨_, hrows⟩ | ⟨hno, hrows⟩
  · subst hrows
    rw [List.map_map]
    apply List.map_congr_left
    intro row _
    exact setConversation_setConversation roomID c row
  · subst hrows
    rw [List.map_append]
    congr 1
    · conv_rhs => rw [← List.map_id rows]
      apply List.map_congr_left
      intro row hrow
      simp [RoomRow.setConversation, hno row hrow]
    · simp [RoomRow.setConversation]

/-- C8: `UpdateConversationIdForRoom` is an idempotent upsert.  After a
successful call for `(r, c)`, a second call for `(r, c)` returns nil and leaves
exactly the store the first call produced (the most recent event ids too); and
a successful call for a room that has a row rewrites the conversation id of
that row, keeping its most recent event id, and adds no row. -/
theorem UpdateConversationIdForRoom_idempotent (store store1 : Database) (r : RoomID) (c : Int)
    (h : UpdateConversationIdForRoom store r c = (.returned none, store1)) :
    UpdateConversationIdForRoom store1 r c = (.returned none, store1) ∧
    ((∃ row ∈ store.tables.chatwoot_conversation_to_matrix_room, row.matrix_room_id = r) →
      store1.tables.chatwoot_conversation_to_matrix_room.length =
        store.tables.chatwoot_conversation_to_matrix_room.length ∧
      store1.tables.chatwoot_conversation_to_matrix_room.map (fun row => row.matrix_room_id) =
        store.tables.chatwoot_conversation_to_matrix_room.map (fun row => row.matrix_room_id) ∧
      ∀ row ∈ store.tables.chatwoot_conversation_to_matrix_room, row.matrix_room_id = r →
        ({ row with chatwoot_conversation_id := c } : RoomRow) ∈
          store1.tables.chatwoot_conversation_to_matrix_room) := by
  obtain ⟨hb, he, hc, rows, hrows, hs⟩ := UpdateConversationIdForRoom_ok store store1 r c h
  subst hs
  constructor
  · unfold UpdateConversationIdForRoom
    rw [writeInTx_eq]
    simp only [hb, he, hc, Stmt.run, sqlUpsertConversation_idempotent _ _ r c hrows]
  · rintro ⟨row0, hrow0, hroom0⟩
    rcases sqlUpsertConversation_ok_cases _ rows r c hrows with ⟨_, hmap⟩ | ⟨hno, _⟩
    · subst hmap
      refine ⟨by simp, ?_, ?_⟩
      · simp only [List.map_map]
        apply List.map_congr_left
        intro row _
        exact setConversation_room r c row
      · intro row hrow hroom
        refine List.mem_map.mpr ⟨row, hrow, ?_⟩
        simp [RoomRow.setConversation, hroom]
    · exact absurd hroom0 (hno row0 hrow0)

/-- C8 at the sample store: conversation 42 of the sample room is replaced by
50; the call repeated gives the same store, with one row and its most recent
event. -/
theorem UpdateConversationIdForRoom_idempotent_witness :
    UpdateConversationIdForRoom sampleStore "!abc:example.org" 50 =
      (.returned none,
        { sampleStore with tables :=
            { sampleStore.tables with chatwoot_conversation_to_matrix_room :=
                [{ matrix_room_id := "!abc:example.org", chatwoot_conversation_id := 50,
                   most_recent_event_id := some "$e1" }] } }) ∧
    UpdateConversationIdForRoom
        { sampleStore with tables :=
            { sampleStore.tables with chatwoot_conversation_to_matrix_room :=
                [{ matrix_room_id := "!abc:example.org", chatwoot_conversation_id := 50,
                   most_recent_event_id := some "$e1" }] } }
        "!abc:example.org" 50 =
      (.returned none,
        { sampleStore with tables :=
            { sampleStore.tables with chatwoot_conversation_to_matrix_room :=
                [{ matrix_room_id := "!abc:example.org", chatwoot_conversation_id := 50,
                   most_recent_event_id := some "$e1" }] } }) :=
  ⟨by decide,
   (UpdateConversationIdForRoom_idempotent sampleStore _ "!abc:example.org" 50
      (by decide)).1⟩

/-! ## The message table -/

/-- The insert `SetChatwootMessageIdForMatrixEvent` on a healthy connection: rejected with
the UNIQUE violation when the event id is in the table, else the pair is
appended. -/
theorem SetChatwootMessageIdForMatrixEvent_healthy (store : Database)
    (hf : store.faults = Faults.healthy) (e : EventID) (m : MessageID) :
    SetChatwootMessageIdForMatrixEvent store e m =
      if store.tables.chatwoot_message_to_matrix_event.any
          (fun row => decide (row.matrix_event_id = e)) then
        (.returned (some (.uniqueViolation "matrix_event_id")), store)
      else
        (.returned none,
          { store with tables :=
              { store.tables with chatwoot_message_to_matrix_event :=
                  store.tables.chatwoot_message_to_matrix_event ++
                    [{ matrix_event_id := e, chatwoot_message_id := m }] } }) := by
  have hb : store.faults.beginErr = none := by rw [hf]; rfl
  have he : store.faults.execErr = none := by rw [hf]; rfl
  have hc : store.faults.commitErr = none := by rw [hf]; rfl
  unfold SetChatwootMessageIdForMatrixEvent
  rw [writeInTx_eq]
  simp only [hb, he, hc, Stmt.run, sqlInsertMessage]
  by_cases hany : (store.tables.chatwoot_message_to_matrix_event.any
      fun row => decide (row.matrix_event_id = e)) = true
  · simp only [hany, if_true]
  · simp only [hany, Bool.false_eq_true, if_false]

/-- An event id is found in the message table exactly when some row carries
it. -/
theorem any_event_iff (rows : List MessageRow) (e : EventID) :
    (rows.any fun row => decide (row.matrix_event_id = e)) = true ↔
      ¬ ∀ row ∈ rows, row.matrix_event_id ≠ e := by
  rw [List.any_eq_true]
  constructor
  · rintro ⟨row, hrow, hp⟩ hall
    exact hall row hrow (by simpa using hp)
  · intro hn
    by_contra hcon
    apply hn
    intro row hrow heq
    exact hcon ⟨row, hrow, by simp [heq]⟩

/-- The insert `SetChatwootMessageIdForMatrixEvent` on a healthy connection, for an event
id that is not in the table: the pair is appended. -/
theorem SetChatwootMessageIdForMatrixEvent_fresh (store : Database)
    (hf : store.faults = Faults.healthy) (e : EventID) (m : MessageID)
    (hall : ∀ row ∈ store.tables.chatwoot_message_to_matrix_event, row.matrix_event_id ≠ e) :
    SetChatwootMessageIdForMatrixEvent store e m =
      (.returned none,
        { store with tables :=
            { store.tables with chatwoot_message_to_matrix_event :=
                store.tables.chatwoot_message_to_matrix_event ++
                  [{ matrix_event_id := e, chatwoot_message_id := m }] } }) := by
  rw [SetChatwootMessageIdForMatrixEvent_healthy store hf,
    if_neg fun h => (any_event_iff _ _).mp h hall]

/-- The insert `SetChatwootMessageIdForMatrixEvent` on a healthy connection, for an event
id that is in the table: the UNIQUE violation, and the store as it was. -/
theorem SetChatwootMessageIdForMatrixEvent_taken (store : Database)
    (hf : store.faults = Faults.healthy) (e : EventID) (m : MessageID)
    (hex : ¬ ∀ row ∈ store.tables.chatwoot_message_to_matrix_event, row.matrix_event_id ≠ e) :
    SetChatwootMessageIdForMatrixEvent store e m =
      (.returned (some (.uniqueViolation "matrix_event_id")), store) := by
  rw [SetChatwootMessageIdForMatrixEvent_healthy store hf, if_pos ((any_event_iff _ _).mpr hex)]

/-- C9, the counterexample: on the empty table the pair `($e1, 1001)` is
stored; the pair `($e1, 1002)`, the same event with another message id, is
rejected by the UNIQUE constraint on `matrix_event_id`, and the lookup by the
event gives 1001 alone. -/
theorem second_message_of_event_rejected :
    SetChatwootMessageIdForMatrixEvent (Database.empty Faults.healthy) "$e1" 1001 =
      (.returned none, storeWithOneMessage) ∧
    SetChatwootMessageIdForMatrixEvent storeWithOneMessage "$e1" 1002 =
      (.returned (some (.uniqueViolation "matrix_event_id")), storeWithOneMessage) ∧
    GetChatwootMessageIDsForMatrixEventID
      (SetChatwootMessageIdForMatrixEvent storeWithOneMessage "$e1" 1002).2 "$e1" =
        ([1001], none) := by
  decide

/-- C9, as amended: on a healthy connection an insert is accepted exactly when
its event id is not in the table yet.  After `(e, m1)` is stored, `(e, m2)` is
rejected with the UNIQUE violation on `matrix_event_id`, the store stays as it
was, and the lookup by `e` gives `m1` alone.  For two distinct event ids that
are not in the table, `(e1, m)` and `(e2, m)` are both stored and the lookup by
`m` gives both `e1` and `e2`. -/
theorem message_event_mapping (store : Database) (hf : store.faults = Faults.healthy) :
    (∀ e m, (SetChatwootMessageIdForMatrixEvent store e m).1 = .returned none ↔
      ∀ row ∈ store.tables.chatwoot_message_to_matrix_event, row.matrix_event_id ≠ e) ∧
    (∀ e m1 m2 store1,
      SetChatwootMessageIdForMatrixEvent store e m1 = (.returned none, store1) →
        SetChatwootMessageIdForMatrixEvent store1 e m2 =
          (.returned (some (.uniqueViolation "matrix_event_id")), store1) ∧
        GetChatwootMessageIDsForMatrixEventID store1 e = ([m1], none)) ∧
    (∀ e1 e2 m, e1 ≠ e2 →
      (∀ row ∈ store.tables.chatwoot_message_to_matrix_event,
        row.matrix_event_id ≠ e1 ∧ row.matrix_event_id ≠ e2) →
      ∃ store1 store2,
        SetChatwootMessageIdForMatrixEvent store e1 m = (.returned none, store1) ∧
        SetChatwootMessageIdForMatrixEvent store1 e2 m = (.returned none, store2) ∧
        e1 ∈ GetMatrixEventIDsForChatwootMessage store2 m ∧
        e2 ∈ GetMatrixEventIDsForChatwootMessage store2 m) := by
  have hq : store.faults.queryErr = none := by rw [hf]; rfl
  refine ⟨?_, ?_, ?_⟩
  · intro e m
    by_cases hall : ∀ row ∈ store.tables.chatwoot_message_to_matrix_event, row.matrix_event_id ≠ e
    · rw [SetChatwootMessageIdForMatrixEvent_fresh store hf e m hall]
      exact ⟨fun _ => hall, fun _ => rfl⟩
    · rw [SetChatwootMessageIdForMatrixEvent_taken store hf e m hall]
      exact ⟨fun h => (by cases h), fun h => absurd h hall⟩
  · intro e m1 m2 store1 h
    by_cases hall : ∀ row ∈ store.tables.chatwoot_message_to_matrix_event, row.matrix_event_id ≠ e
    · rw [SetChatwootMessageIdForMatrixEvent_fresh store hf e m1 hall] at h
      have hs := ((Prod.mk.injEq _ _ _ _).mp h).2
      have hf1 : store1.faults = Faults.healthy := by rw [← hs]; exact hf
      have hrows : store1.tables.chatwoot_message_to_matrix_event =
          store.tables.chatwoot_message_to_matrix_event ++
            [{ matrix_event_id := e, chatwoot_message_id := m1 }] := by rw [← hs]
      constructor
      · apply SetChatwootMessageIdForMatrixEvent_taken store1 hf1
        intro hno
        exact hno _ (by rw [hrows]; exact List.mem_append_right _ (List.mem_singleton.mpr rfl)) rfl
      · unfold GetChatwootMessageIDsForMatrixEventID
        have hq1 : store1.faults.queryErr = none := by rw [hf1]; rfl
        have hfil : store.tables.chatwoot_message_to_matrix_event.filter
            (fun row => decide (row.matrix_event_id = e)) = [] := by
          rw [List.filter_eq_nil_iff]
          intro row hrow
          simpa using hall row hrow
        simp [hq1, hrows, List.filter_append, hfil]
    · rw [SetChatwootMessageIdForMatrixEvent_taken store hf e m1 hall] at h
      cases h
  · intro e1 e2 m hne hfresh
    have h1 := SetChatwootMessageIdForMatrixEvent_fresh store hf e1 m
      fun row hrow => (hfresh row hrow).1
    have h2 := SetChatwootMessageIdForMatrixEvent_fresh
      { store with tables :=
          { store.tables with chatwoot_message_to_matrix_event :=
              store.tables.chatwoot_message_to_matrix_event ++
                [{ matrix_event_id := e1, chatwoot_message_id := m }] } }
      hf e2 m (by
        intro row hrow
        rcases List.mem_append.mp hrow with hold | hlast
        · exact (hfresh row hold).2
        · rw [List.mem_singleton] at hlast
          subst hlast
          exact hne)
    refine ⟨_, _, h1, h2, ?_, ?_⟩
    · unfold GetMatrixEventIDsForChatwootMessage
      simp [hq]
    · unfold GetMatrixEventIDsForChatwootMessage
      simp [hq]

/-- C9 as amended, on the empty table: the events `$e1` and `$e2` are both
stored for message 1001 and the lookup by 1001 gives both. -/
theorem message_event_mapping_witness :
    (Database.empty Faults.healthy).faults = Faults.healthy ∧
    ∃ store1 store2,
      SetChatwootMessageIdForMatrixEvent (Database.empty Faults.healthy) "$e1" 1001 =
        (.returned none, store1) ∧
      SetChatwootMessageIdForMatrixEvent store1 "$e2" 1001 = (.returned none, store2) ∧
      "$e1" ∈ GetMatrixEventIDsForChatwootMessage store2 1001 ∧
      "$e2" ∈ GetMatrixEventIDsForChatwootMessage store2 1001 :=
  ⟨rfl,
   (message_event_mapping (Database.empty Faults.healthy) rfl).2.2 "$e1" "$e2" 1001
     (by decide) (fun _ hrow => nomatch hrow)⟩

/-! ## Failures of the writers -/

/-- A writer whose `Exec` fails on the connection returns that error and
leaves the store as it was (the transaction is rolled back). -/
theorem writeInTx_of_exec_error (store : Database) (s : Stmt) (err : DBError)
    (hb : store.faults.beginErr = none) (he : store.faults.execErr = some err) :
    writeInTx store s = (.returned (some err), store) := by
  rw [writeInTx_eq, hb, he]

/-- A writer whose statement violates a constraint returns that error and
leaves the store as it was. -/
theorem writeInTx_of_stmt_error (store : Database) (s : Stmt) (err : DBError)
    (hb : store.faults.beginErr = none) (he : store.faults.execErr = none)
    (hs : s.run store.tables = .error err) :
    writeInTx store s = (.returned (some err), store) := by
  rw [writeInTx_eq, hb, he, hs]

/-- A writer whose `Begin` fails panics: it never returns the error. -/
theorem writeInTx_of_begin_error (store : Database) (s : Stmt) (err : DBError)
    (hb : store.faults.beginErr = some err) :
    writeInTx store s = (.panicked, store) := by
  rw [writeInTx_eq, hb]

/-- C10: the failing runs.  On a connection that refuses to start a
transaction each of the three writers calls `Rollback` on the nil transaction
and panics; none of them returns the error of `Begin`.  The tables stay as
they were. -/
theorem writers_panic_when_begin_fails :
    brokenGlobals.stateStore.faults.beginErr = some (.connection "connection refused") ∧
    UpdateConversationIdForRoom brokenGlobals.stateStore "!abc:example.org" 42 =
      (.panicked, brokenGlobals.stateStore) ∧
    UpdateMostRecentEventIdForRoom brokenGlobals.stateStore "!abc:example.org" "$e2" =
      (.panicked, brokenGlobals.stateStore) ∧
    SetChatwootMessageIdForMatrixEvent brokenGlobals.stateStore "$e2" 1001 =
      (.panicked, brokenGlobals.stateStore) := by
  decide

/-! ## The frame of `UpdateMostRecentEventIdForRoom` -/

/-- What a successful `UpdateMostRecentEventIdForRoom` did. -/
theorem UpdateMostRecentEventIdForRoom_ok_inv (store store2 : Database) (r : RoomID)
    (e : EventID) (h : UpdateMostRecentEventIdForRoom store r e = (.returned none, store2)) :
    store2 = { store with tables :=
      { store.tables with chatwoot_conversation_to_matrix_room :=
          (sqlUpdateMostRecentEvent store.tables.chatwoot_conversation_to_matrix_room r e) } } := by
  obtain ⟨_, _, _, t, ht, hs⟩ := writeInTx_ok store store2 _ h
  simp only [Stmt.run, Except.ok.injEq] at ht
  rw [hs, ← ht]

/-- C15: `UpdateMostRecentEventIdForRoom` changes the most recent event id of
the room's row and nothing else.  After a successful call for room `r` and
event `e` the table has as many rows as before and the same room ids in the
same places; every row of `r` is an old row of `r` with the same conversation
id and with `e` as most recent event; the rows of the other rooms are the old
ones; when `r` has no row the store is unchanged; the message table and the
connection are untouched; and the lookup of the conversation of any room gives
what it gave before.  Whether the call succeeds does not depend on the room
having a row: it returns nil whenever `Begin`, `Exec` and `Commit` go
through. -/
theorem UpdateMostRecentEventIdForRoom_frame (store store2 : Database) (r : RoomID) (e : EventID)
    (h : UpdateMostRecentEventIdForRoom store r e = (.returned none, store2)) :
    store2.tables.chatwoot_conversation_to_matrix_room.length =
      store.tables.chatwoot_conversation_to_matrix_room.length ∧
    store2.tables.chatwoot_conversation_to_matrix_room.map (fun row => row.matrix_room_id) =
      store.tables.chatwoot_conversation_to_matrix_room.map (fun row => row.matrix_room_id) ∧
    store2.tables.chatwoot_conversation_to_matrix_room.map
        (fun row => row.chatwoot_conversation_id) =
      store.tables.chatwoot_conversation_to_matrix_room.map
        (fun row => row.chatwoot_conversation_id) ∧
    (∀ row ∈ store.tables.chatwoot_conversation_to_matrix_room, row.matrix_room_id = r →
      ({ row with most_recent_event_id := some e } : RoomRow) ∈
        store2.tables.chatwoot_conversation_to_matrix_room) ∧
    (∀ row ∈ store2.tables.chatwoot_conversation_to_matrix_room, row.matrix_room_id = r →
      row.most_recent_event_id = some e ∧
      ∃ old ∈ store.tables.chatwoot_conversation_to_matrix_room,
        old.matrix_room_id = r ∧ old.chatwoot_conversation_id = row.chatwoot_conversation_id) ∧
    (∀ row : RoomRow, row.matrix_room_id ≠ r →
      (row ∈ store2.tables.chatwoot_conversation_to_matrix_room ↔
        row ∈ store.tables.chatwoot_conversation_to_matrix_room)) ∧
    ((∀ row ∈ store.tables.chatwoot_conversation_to_matrix_room, row.matrix_room_id ≠ r) →
      store2 = store) ∧
    store2.tables.chatwoot_message_to_matrix_event =
      store.tables.chatwoot_message_to_matrix_event ∧
    store2.faults = store.faults ∧
    (∀ x, GetChatwootConversationIDFromMatrixRoom store2 x =
      GetChatwootConversationIDFromMatrixRoom store x) ∧
    (∀ (other : Database) (r2 : RoomID) (e2 : EventID), other.faults = store.faults →
      (UpdateMostRecentEventIdForRoom other r2 e2).1 = .returned none) := by
  have hs := UpdateMostRecentEventIdForRoom_ok_inv store store2 r e h
  have hget : ∀ x, GetChatwootConversationIDFromMatrixRoom store2 x =
      GetChatwootConversationIDFromMatrixRoom store x := by
    intro x
    have := GetChatwootConversationID_after_UpdateMostRecent store r x e
    rw [h] at this
    exact this
  have hnone : (∀ row ∈ store.tables.chatwoot_conversation_to_matrix_room,
      row.matrix_room_id ≠ r) → store2 = store := by
    intro hall
    have := UpdateMostRecentEventIdForRoom_of_no_row store r e hall
    rw [h] at this
    exact this
  obtain ⟨hb, he, hc, _⟩ := writeInTx_ok store store2 _ h
  refine ⟨?_, ?_, ?_, ?_, ?_, ?_, hnone, ?_, ?_, hget, ?_⟩
  all_goals try subst hs
  all_goals try simp only [sqlUpdateMostRecentEvent]
  · simp
  · rw [List.map_map]
    exact List.map_congr_left fun row _ => setMostRecentEvent_room r e row
  · rw [List.map_map]
    exact List.map_congr_left fun row _ => setMostRecentEvent_conversation r e row
  · intro row hrow hroom
    refine List.mem_map.mpr ⟨row, hrow, ?_⟩
    simp [RoomRow.setMostRecentEvent, hroom]
  · intro row hrow hroom
    obtain ⟨old, hold, hset⟩ := List.mem_map.mp hrow
    subst hset
    rw [setMostRecentEvent_room] at hroom
    refine ⟨by simp [RoomRow.setMostRecentEvent, hroom], old, hold, hroom, ?_⟩
    rw [setMostRecentEvent_conversation]
  · intro row hroom
    constructor
    · intro hrow
      obtain ⟨old, hold, hset⟩ := List.mem_map.mp hrow
      have hor : old.matrix_room_id ≠ r := by
        rw [← setMostRecentEvent_room r e old, hset]
        exact hroom
      have : old.setMostRecentEvent r e = old := by simp [RoomRow.setMostRecentEvent, hor]
      rw [← hset, this]
      exact hold
    · intro hrow
      refine List.mem_map.mpr ⟨row, hrow, ?_⟩
      simp [RoomRow.setMostRecentEvent, hroom]
  · intro other r2 e2 hf
    rw [UpdateMostRecentEventIdForRoom_ok other r2 e2 (by rw [hf]; exact hb)
      (by rw [hf]; exact he) (by rw [hf]; exact hc)]

/-- C15 at the sample store: the event `$e9` is recorded for the sample room;
conversation 42 stays, and a room without a row gets none. -/
theorem UpdateMostRecentEventIdForRoom_frame_witness :
    UpdateMostRecentEventIdForRoom sampleStore "!abc:example.org" "$e9" =
      (.returned none,
        { sampleStore with tables :=
            { sampleStore.tables with chatwoot_conversation_to_matrix_room :=
                [{ matrix_room_id := "!abc:example.org", chatwoot_conversation_id := 42,
                   most_recent_event_id := some "$e9" }] } }) ∧
    (UpdateMostRecentEventIdForRoom sampleStore "!none:example.org" "$e9").1 = .returned none :=
  ⟨by decide,
   (UpdateMostRecentEventIdForRoom_frame sampleStore
      { sampleStore with tables :=
          { sampleStore.tables with chatwoot_conversation_to_matrix_room :=
              [{ matrix_room_id := "!abc:example.org", chatwoot_conversation_id := 42,
                 most_recent_event_id := some "$e9" }] } }
      "!abc:example.org" "$e9"
      (by decide)).2.2.2.2.2.2.2.2.2.2 sampleStore "!none:example.org" "$e9" rfl⟩

/-! ## The text of the decrypt-error notification -/

/-- Whatever the decryption error, the label and the text handed to `DoRetry`
carry `<nil>` where the error is expected: the variable `err` holds the nil
result of the conversation lookup by then. -/
theorem DecryptErrorCallback_text (lib : Mautrix) (g : Globals) (evt : Event)
    (err : Option String) (label content : String) (c : Int)
    (hmem : Call.DoRetrySendPrivateMessage label c content ∈
      (DecryptErrorCallback lib g evt err).calls) :
    label = "send private error message to " ++ toString c ++ " for " ++ "<nil>" ∧
    content = "**Failed to decrypt Matrix event (" ++ evt.ID ++
      "). You probably missed a message!**\n\nError: " ++ "<nil>" := by
  unfold DecryptErrorCallback at hmem
  rcases hu : UpdateMostRecentEventIdForRoom g.stateStore evt.RoomID evt.ID with ⟨o, store⟩
  rw [hu] at hmem
  cases o with
  | panicked => simp at hmem
  | returned uerr =>
    simp only at hmem
    by_cases hv : VerifyFromAuthorizedUser lib g evt.Sender = true
    · simp only [hv, Bool.not_true, Bool.false_eq_true, if_false] at hmem
      rcases hl : GetChatwootConversationIDFromMatrixRoom store evt.RoomID with ⟨c0, dbErr⟩
      rw [hl] at hmem
      cases dbErr with
      | some e2 => simp at hmem
      | none =>
        simp only [Option.map_none', Option.isSome_none, Bool.false_eq_true, if_false] at hmem
        simp at hmem
        obtain ⟨h1, h2, h3⟩ := hmem
        subst h2
        exact ⟨by rw [h1, fmtError], by rw [h3, fmtError]⟩
    · simp [hv] at hmem

/-- C16: the failing run.  The decryption of Alice's event `$e3` fails with the
error `no session`; the sender is authorized and the room is mapped to
conversation 42, so the notification is sent: its text and the retry label end
in `<nil>`, not in the decryption error. -/
theorem DecryptErrorCallback_reports_nil :
    (DecryptErrorCallback mautrix sampleGlobals aliceEncrypted (some "no session")).calls =
      [.logError (some "no session") "Failed to decrypt message",
       .UpdateMostRecentEventIdForRoom "!abc:example.org" "$e3",
       .VerifyFromAuthorizedUser "@alice:example.org",
       .GetChatwootConversationIDFromMatrixRoom "!abc:example.org",
       .DoRetrySendPrivateMessage
         "send private error message to 42 for <nil>" 42
         "**Failed to decrypt Matrix event ($e3). You probably missed a message!**\n\nError: <nil>"] ∧
    Call.DoRetrySendPrivateMessage
        "send private error message to 42 for no session" 42
        "**Failed to decrypt Matrix event ($e3). You probably missed a message!**\n\nError: no session"
      ∉ (DecryptErrorCallback mautrix sampleGlobals aliceEncrypted (some "no session")).calls := by
  decide

/-! ## The search for a contact -/

/-- The loop over the contacts finds the first contact with the identifier. -/
theorem firstContactWithIdentifier_append (userID : UserID) (before after : List Contact)
    (contact : Contact) (hbefore : ∀ x ∈ before, x.Identifier ≠ userID)
    (hcontact : contact.Identifier = userID) :
    firstContactWithIdentifier userID (before ++ contact :: after) = some contact.ID := by
  induction before with
  | nil => simp [firstContactWithIdentifier, hcontact]
  | cons b rest ih =>
    have hb : b.Identifier ≠ userID := hbefore b (List.mem_cons_self _ _)
    simp only [List.cons_append, firstContactWithIdentifier, hb, if_false]
    exact ih fun x hx => hbefore x (List.mem_cons_of_mem _ hx)

/-- The loop over the contacts finds nothing exactly when no contact has the
identifier. -/
theorem firstContactWithIdentifier_eq_none (userID : UserID) (L : List Contact) :
    firstContactWithIdentifier userID L = none ↔ ∀ x ∈ L, x.Identifier ≠ userID := by
  induction L with
  | nil => simp [firstContactWithIdentifier]
  | cons b rest ih =>
    by_cases hb : b.Identifier = userID
    · simp [firstContactWithIdentifier, hb]
    · simp [firstContactWithIdentifier, hb, ih]

/-- An id the loop returns is the id of a contact with the identifier. -/
theorem firstContactWithIdentifier_some (userID : UserID) (L : List Contact) (id : ContactID)
    (h : firstContactWithIdentifier userID L = some id) :
    ∃ contact ∈ L, contact.Identifier = userID ∧ contact.ID = id := by
  induction L with
  | nil => simp [firstContactWithIdentifier] at h
  | cons b rest ih =>
    by_cases hb : b.Identifier = userID
    · simp only [firstContactWithIdentifier, hb, if_true, Option.some.injEq] at h
      exact ⟨b, List.mem_cons_self _ _, hb, h⟩
    · simp only [firstContactWithIdentifier, hb, if_false] at h
      obtain ⟨contact, hmem, hc⟩ := ih h
      exact ⟨contact, List.mem_cons_of_mem _ hmem, hc⟩

/-- C17: on a successful search response with contact list `L`,
`ContactIDForMxid` returns the id of the first contact of `L` whose identifier
is exactly the user id; an id it returns without error is the id of such a
contact; and when no contact of `L` has the identifier (the empty list
included) it returns the id 0 with an error. -/
theorem ContactIDForMxid_exact (ep : Endpoints) (userID : UserID) (L : List Contact)
    (h : ep.getContactsSearch userID = .response 200 (.ok { Payload := L })) :
    (∀ before contact after, L = before ++ contact :: after →
      (∀ x ∈ before, x.Identifier ≠ userID) → contact.Identifier = userID →
      ContactIDForMxid ep userID = (contact.ID, none)) ∧
    (∀ id, ContactIDForMxid ep userID = (id, none) →
      ∃ contact ∈ L, contact.Identifier = userID ∧ contact.ID = id) ∧
    ((∀ x ∈ L, x.Identifier ≠ userID) →
      ∃ err, ContactIDForMxid ep userID = (0, some err)) ∧
    (L = [] → ∃ err, ContactIDForMxid ep userID = (0, some err)) := by
  have hnone : (∀ x ∈ L, x.Identifier ≠ userID) →
      ∃ err, ContactIDForMxid ep userID = (0, some err) := by
    intro hall
    unfold ContactIDForMxid
    rw [h]
    simp only [ne_eq, not_true_eq_false, if_false,
      (firstContactWithIdentifier_eq_none userID L).mpr hall]
    exact ⟨_, rfl⟩
  refine ⟨?_, ?_, hnone, ?_⟩
  · intro before contact after hL hbefore hcontact
    unfold ContactIDForMxid
    rw [h]
    simp only [ne_eq, not_true_eq_false, if_false, hL,
      firstContactWithIdentifier_append userID before after contact hbefore hcontact]
  · intro id hid
    unfold ContactIDForMxid at hid
    rw [h] at hid
    simp only [ne_eq, not_true_eq_false, if_false] at hid
    cases hf : firstContactWithIdentifier userID L with
    | none => rw [hf] at hid; simp at hid
    | some found =>
      rw [hf] at hid
      simp only [Prod.mk.injEq, and_true] at hid
      subst hid
      exact firstContactWithIdentifier_some userID L found hf
  · intro hL
    subst hL
    exact hnone (fun x hx => nomatch hx)

/-- C17 on the sample platform: the search answers a contact whose identifier
only starts like Alice's user id, then Alice's contact; the id returned is
Alice's, 7. -/
theorem ContactIDForMxid_exact_witness :
    ContactIDForMxid (endpointsAnswering 200 200) "@alice:example.org" = (7, none) :=
  (ContactIDForMxid_exact (endpointsAnswering 200 200) "@alice:example.org"
    [aliceLookalike, aliceContact] rfl).1 [aliceLookalike] aliceContact [] rfl
    (by decide) (by decide)

/-! ## The status code of a response -/

/-- C12, the counterexample: the platform answers the creation of a contact
with `201 Created` and a well-formed body, and the deletion of a message with
`204 No Content`.  Both statuses are in 200-299, and both calls return an
error; `CreateContact` returns no contact id. -/
theorem created_and_no_content_are_errors :
    CreateContact sampleApi (endpointsAnswering 201 204) "@alice:example.org" =
      (0, some "POST contacts returned non-200 status code: 201") ∧
    DeleteMessage (endpointsAnswering 201 204) 42 1001 =
      some "GET attachment returned non-200 status code: 204" := by
  decide

/-- C12, as amended: for each REST operation, when a response arrives and its
body decodes, the result is an error exactly when the status code is not 200.
So every status outside 200-299 is an error, and so is every status of 200-299
other than 200; with an error no decoded result is returned, and with status
200 the decoded result is.  `ContactIDForMxid` is an error also when the status
is 200 and no contact of the response has the identifier. -/
theorem rest_error_iff_status_ne_200 (api : ChatwootAPI) (ep : Endpoints) (status : Nat) :
    (∀ userID body,
      ep.postContacts { InboxID := api.InboxID, Name := userID, Email := userID,
                        PhoneNumber := "", Identifier := userID }
          = .response status (.ok body) →
        ((CreateContact api ep userID).2 ≠ none ↔ status ≠ 200) ∧
        (status ≠ 200 → (CreateContact api ep userID).1 = 0) ∧
        (status = 200 → CreateContact api ep userID = (body.Payload.Contact.ID, none))) ∧
    (∀ userID L, ep.getContactsSearch userID = .response status (.ok { Payload := L }) →
        ((ContactIDForMxid ep userID).2 ≠ none ↔
          (status ≠ 200 ∨ ∀ x ∈ L, x.Identifier ≠ userID)) ∧
        (status ≠ 200 → (ContactIDForMxid ep userID).1 = 0)) ∧
    (∀ conversationID body, api.getConversation conversationID = .response status (.ok body) →
        ((∃ err, GetChatwootConversation api conversationID = .error err) ↔ status ≠ 200) ∧
        (status = 200 → GetChatwootConversation api conversationID = .ok body)) ∧
    (∀ sourceID contactID attrs body,
      ep.postConversations sourceID api.InboxID contactID attrs = .response status (.ok body) →
        ((∃ err, CreateConversation api ep sourceID contactID attrs = .error err) ↔
          status ≠ 200) ∧
        (status = 200 → CreateConversation api ep sourceID contactID attrs = .ok body)) ∧
    (∀ conversationID labels decoded,
      ep.postLabels conversationID labels = .response status decoded →
        (AddConversationLabel ep conversationID labels ≠ none ↔ status ≠ 200)) ∧
    (∀ conversationID attrs decoded,
      ep.postCustomAttributes conversationID attrs = .response status decoded →
        (SetConversationCustomAttributes ep conversationID attrs ≠ none ↔ status ≠ 200)) ∧
    (∀ conversationID content messageType body,
      ep.postMessages conversationID
          { content := content, message_type := MessageTypeString messageType,
            isPrivate := false } = .response status (.ok body) →
        ((∃ err, SendTextMessage ep conversationID content messageType = .error err) ↔
          status ≠ 200) ∧
        (status = 200 → SendTextMessage ep conversationID content messageType = .ok body)) ∧
    (∀ conversationID content body,
      ep.postMessages conversationID
          { content := content, message_type := MessageTypeString .OutgoingMessage,
            isPrivate := true } = .response status (.ok body) →
        ((∃ err, SendPrivateMessage ep conversationID content = .error err) ↔ status ≠ 200) ∧
        (status = 200 → SendPrivateMessage ep conversationID content = .ok body)) ∧
    (∀ conversationID filename mimeType fileData messageType body,
      ep.postAttachment conversationID filename
          (if mimeType ≠ "" then mimeType else "application/octet-stream") fileData
          (MessageTypeString messageType) = .response status (.ok body) →
        ((∃ err, SendAttachmentMessage ep conversationID filename mimeType fileData messageType
            = .error err) ↔ status ≠ 200) ∧
        (status = 200 →
          SendAttachmentMessage ep conversationID filename mimeType fileData messageType
            = .ok body)) ∧
    (∀ url data, ep.getAttachment url = .response status (.ok data) →
        ((∃ err, DownloadAttachment ep url = .error err) ↔ status ≠ 200) ∧
        (status = 200 → DownloadAttachment ep url = .ok data)) ∧
    (∀ conversationID messageID decoded,
      ep.deleteMessage conversationID messageID = .response status decoded →
        (DeleteMessage ep conversationID messageID ≠ none ↔ status ≠ 200)) := by
  refine ⟨?_, ?_, ?_, ?_, ?_, ?_, ?_, ?_, ?_, ?_, ?_⟩
  · intro userID body h
    unfold CreateContact
    rw [h]
    by_cases hs : status = 200 <;> simp [hs]
  · intro userID L h
    unfold ContactIDForMxid
    rw [h]
    by_cases hs : status = 200
    · subst hs
      simp only [ne_eq, not_true_eq_false, if_false, false_or, false_implies, and_true]
      cases hf : firstContactWithIdentifier userID L with
      | none =>
        exact ⟨fun _ => (firstContactWithIdentifier_eq_none userID L).mp hf,
          fun _ hcon => (by cases hcon)⟩
      | some id =>
        refine ⟨fun hne => absurd rfl hne, fun hall => ?_⟩
        rw [(firstContactWithIdentifier_eq_none userID L).mpr hall] at hf
        cases hf
    · simp [hs]
  · intro conversationID body h
    unfold GetChatwootConversation
    rw [h]
    by_cases hs : status = 200 <;> simp [hs]
  · intro sourceID contactID attrs body h
    unfold CreateConversation
    rw [h]
    by_cases hs : status = 200 <;> simp [hs]
  · intro conversationID labels decoded h
    unfold AddConversationLabel
    rw [h]
    by_cases hs : status = 200 <;> simp [hs]
  · intro conversationID attrs decoded h
    unfold SetConversationCustomAttributes
    rw [h]
    by_cases hs : status = 200 <;> simp [hs]
  · intro conversationID content messageType body h
    unfold SendTextMessage doSendTextMessage
    rw [h]
    by_cases hs : status = 200 <;> simp [hs]
  · intro conversationID content body h
    unfold SendPrivateMessage doSendTextMessage
    rw [h]
    by_cases hs : status = 200 <;> simp [hs]
  · intro conversationID filename mimeType fileData messageType body h
    unfold SendAttachmentMessage
    rw [h]
    by_cases hs : status = 200 <;> simp [hs]
  · intro url data h
    unfold DownloadAttachment
    rw [h]
    by_cases hs : status = 200 <;> simp [hs]
  · intro conversationID messageID decoded h
    unfold DeleteMessage
    rw [h]
    by_cases hs : status = 200 <;> simp [hs]

/-- C12 as amended, on the sample platform answering 200: the contact is
created and its id returned. -/
theorem rest_error_iff_status_ne_200_witness :
    CreateContact sampleApi (endpointsAnswering 200 200) "@alice:example.org" = (7, none) :=
  ((rest_error_iff_status_ne_200 sampleApi (endpointsAnswering 200 200) 200).1
    "@alice:example.org" { Payload := { Contact := aliceContact } } rfl).2.2 rfl

/-! ## The startup backfill -/

theorem attemptsOf_append (a b : List BackfillStep) :
    attemptsOf (a ++ b) = attemptsOf a ++ attemptsOf b := by
  induction a with
  | nil => rfl
  | cons step rest ih =>
    cases step <;> simp [attemptsOf, ih]

theorem roomsLookedUp_append (a b : List BackfillStep) :
    roomsLookedUp (a ++ b) = roomsLookedUp a ++ roomsLookedUp b := by
  induction a with
  | nil => rfl
  | cons step rest ih =>
    cases step <;> simp [roomsLookedUp, ih]

/-- The inner loop looks no room up. -/
theorem roomsLookedUp_backfillChunk {σ : Type} (env : BackfillEnv σ) (roomID : RoomID) (s : σ)
    (chunk : List Event) : roomsLookedUp (backfillChunk env roomID s chunk).1 = [] := by
  induction chunk generalizing s with
  | nil => rfl
  | cons evt rest ih =>
    unfold backfillChunk
    split
    · exact ih s
    · rcases hg : env.GetOrCreateChatwootConversation s roomID evt with ⟨result, s2⟩
      cases result with
      | error err =>
        simp only
        have := ih s2
        rcases hb : backfillChunk env roomID s2 rest with ⟨steps, s3, created⟩
        rw [hb] at this
        simpa [roomsLookedUp] using this
      | ok c => rfl

/-- The body of the loop looks its room up, once. -/
theorem roomsLookedUp_backfillRoom {σ : Type} (env : BackfillEnv σ) (s : σ) (roomID : RoomID) :
    roomsLookedUp (backfillRoom env s roomID).1 = [roomID] := by
  unfold backfillRoom
  rcases GetChatwootConversationIDFromMatrixRoom (env.stateStore s) roomID with ⟨c, err⟩
  cases err with
  | none => rfl
  | some e =>
    simp only
    cases env.Messages s roomID with
    | error e2 => rfl
    | ok chunk =>
      simp only
      have := roomsLookedUp_backfillChunk env roomID s chunk
      rcases hb : backfillChunk env roomID s chunk with ⟨steps, s2, created⟩
      rw [hb] at this
      cases created <;> simp [roomsLookedUp, roomsLookedUp_append, this]

/-- The event types the inner loop skips are the unsuitable ones. -/
theorem isSuitable_eq_false_iff (evt : Event) :
    isSuitable evt = false ↔ evt.Type_ ≠ .EventMessage ∧ evt.Type_ ≠ .EventEncrypted := by
  unfold isSuitable
  by_cases h1 : evt.Type_ = .EventMessage <;> by_cases h2 : evt.Type_ = .EventEncrypted <;>
    simp [h1, h2]

/-- The inner loop at an event it skips. -/
theorem backfillChunk_skip {σ : Type} (env : BackfillEnv σ) (roomID : RoomID) (s : σ)
    (evt : Event) (rest : List Event) (h : isSuitable evt = false) :
    backfillChunk env roomID s (evt :: rest) = backfillChunk env roomID s rest := by
  rw [backfillChunk, if_pos ((isSuitable_eq_false_iff evt).mp h)]

/-- The inner loop at a suitable event whose resolution fails. -/
theorem backfillChunk_error {σ : Type} (env : BackfillEnv σ) (roomID : RoomID) (s s2 : σ)
    (evt : Event) (rest : List Event) (err : String) (h : isSuitable evt = true)
    (hg : env.GetOrCreateChatwootConversation s roomID evt = (.error err, s2)) :
    backfillChunk env roomID s (evt :: rest) =
      (.resolve roomID evt false :: (backfillChunk env roomID s2 rest).1,
        (backfillChunk env roomID s2 rest).2.1, (backfillChunk env roomID s2 rest).2.2) := by
  have hn : ¬ (evt.Type_ ≠ .EventMessage ∧ evt.Type_ ≠ .EventEncrypted) := by
    intro hc
    rw [(isSuitable_eq_false_iff evt).mpr hc] at h
    cases h
  rw [backfillChunk, if_neg hn, hg]

/-- The inner loop at a suitable event whose resolution succeeds. -/
theorem backfillChunk_ok {σ : Type} (env : BackfillEnv σ) (roomID : RoomID) (s s2 : σ)
    (evt : Event) (rest : List Event) (c : Int) (h : isSuitable evt = true)
    (hg : env.GetOrCreateChatwootConversation s roomID evt = (.ok c, s2)) :
    backfillChunk env roomID s (evt :: rest) = ([.resolve roomID evt true], s2, true) := by
  have hn : ¬ (evt.Type_ ≠ .EventMessage ∧ evt.Type_ ≠ .EventEncrypted) := by
    intro hc
    rw [(isSuitable_eq_false_iff evt).mpr hc] at h
    cases h
  rw [backfillChunk, if_neg hn, hg]

/-- The attempts of the inner loop: the suitable events of the chunk in order,
up to the first success. -/
theorem backfillChunk_attempts {σ : Type} (env : BackfillEnv σ) (roomID : RoomID) (s : σ)
    (chunk : List Event) :
    (backfillChunk env roomID s chunk).1 =
      (attemptsOf (backfillChunk env roomID s chunk).1).map
        (fun a => BackfillStep.resolve a.1 a.2.1 a.2.2) ∧
    (∀ a ∈ attemptsOf (backfillChunk env roomID s chunk).1, a.1 = roomID) ∧
    ∃ rest,
      (attemptsOf (backfillChunk env roomID s chunk).1).map (fun a => a.2.1) ++ rest =
        chunk.filter isSuitable ∧
      (∀ a ∈ (attemptsOf (backfillChunk env roomID s chunk).1).dropLast, a.2.2 = false) ∧
      ((backfillChunk env roomID s chunk).2.2 = true →
        ∃ evt, (attemptsOf (backfillChunk env roomID s chunk).1).getLast? =
          some (roomID, evt, true)) ∧
      ((backfillChunk env roomID s chunk).2.2 = false →
        rest = [] ∧ ∀ a ∈ attemptsOf (backfillChunk env roomID s chunk).1, a.2.2 = false) := by
  induction chunk generalizing s with
  | nil =>
    refine ⟨rfl, fun a ha => (by cases ha), [], rfl, fun a ha => (by cases ha), ?_, ?_⟩
    · intro h; cases h
    · intro _; exact ⟨rfl, fun a ha => (by cases ha)⟩
  | cons evt rest ih =>
    cases hsu : isSuitable evt with
    | false =>
      rw [backfillChunk_skip env roomID s evt rest hsu]
      simp only [List.filter_cons, hsu, Bool.false_eq_true, if_false]
      exact ih s
    | true =>
      simp only [List.filter_cons, hsu, if_true]
      rcases hg : env.GetOrCreateChatwootConversation s roomID evt with ⟨result, s2⟩
      cases result with
      | ok c =>
        rw [backfillChunk_ok env roomID s s2 evt rest c hsu hg]
        refine ⟨rfl, ?_, rest.filter isSuitable, rfl, ?_, ?_, ?_⟩
        · intro a ha
          simp only [attemptsOf, List.mem_singleton] at ha
          rw [ha]
        · intro a ha
          simp [attemptsOf] at ha
        · intro _
          exact ⟨evt, rfl⟩
        · intro h; cases h
      | error err =>
        rw [backfillChunk_error env roomID s s2 evt rest err hsu hg]
        obtain ⟨hsteps, hroom, more, hpre, hfailed, hcreated, hnot⟩ := ih s2
        simp only [attemptsOf, List.map_cons, List.cons_append, List.mem_cons]
        refine ⟨?_, ?_, more, ?_, ?_, ?_, ?_⟩
        · rw [← hsteps]
        · rintro a (ha | ha)
          · rw [ha]
          · exact hroom a ha
        · rw [hpre]
        · intro a ha
          cases hat : attemptsOf (backfillChunk env roomID s2 rest).1 with
          | nil => rw [hat] at ha; simp at ha
          | cons b bs =>
            rw [hat, List.dropLast_cons₂, List.mem_cons] at ha
            rcases ha with ha | ha
            · rw [ha]
            · exact hfailed a (by rw [hat]; exact ha)
        · intro hc
          obtain ⟨e2, hlast⟩ := hcreated hc
          refine ⟨e2, ?_⟩
          cases hat : attemptsOf (backfillChunk env roomID s2 rest).1 with
          | nil => rw [hat] at hlast; simp at hlast
          | cons b bs =>
            rw [hat] at hlast
            rw [List.getLast?_cons_cons]
            exact hlast
        · intro hc
          obtain ⟨hmore, hall⟩ := hnot hc
          refine ⟨hmore, ?_⟩
          rintro a (ha | ha)
          · rw [ha]
          · exact hall a ha

/-- The attempts of the body of the loop are those of its inner loop. -/
theorem attemptsOf_backfillRoom {σ : Type} (env : BackfillEnv σ) (s : σ) (roomID : RoomID)
    (chunk : List Event)
    (hl : (GetChatwootConversationIDFromMatrixRoom (env.stateStore s) roomID).2 ≠ none)
    (hm : env.Messages s roomID = .ok chunk) :
    attemptsOf (backfillRoom env s roomID).1 = attemptsOf (backfillChunk env roomID s chunk).1 := by
  unfold backfillRoom
  rcases hg : GetChatwootConversationIDFromMatrixRoom (env.stateStore s) roomID with ⟨c, err⟩
  rw [hg] at hl
  cases err with
  | none => exact absurd rfl hl
  | some e =>
    simp only [hm]
    rcases hb : backfillChunk env roomID s chunk with ⟨steps, s2, created⟩
    cases created <;> simp [attemptsOf, attemptsOf_append]

/-- The loop over the rooms looks every room up, in order. -/
theorem roomsLookedUp_backfillRooms {σ : Type} (env : BackfillEnv σ) (s : σ)
    (joined : List RoomID) : roomsLookedUp (backfillRooms env s joined).1 = joined := by
  induction joined generalizing s with
  | nil => rfl
  | cons roomID rest ih =>
    unfold backfillRooms
    have h1 := roomsLookedUp_backfillRoom env s roomID
    rcases hb : backfillRoom env s roomID with ⟨steps, s2⟩
    rw [hb] at h1
    simp only at h1
    simp only [roomsLookedUp_append]
    rw [h1, ih s2]
    rfl

/-- C11, the counterexample: the bot is in the new room `!new:example.org`,
whose history is a membership event, the encrypted event `$m2` and the older
message `$m1`.  The first suitable event is `$m2`; its resolution fails, and the
backfill goes on to resolve the room with `$m1` in the same pass. -/
theorem backfill_uses_an_older_event :
    ([memberEvent, recentMessage, olderMessage].filter isSuitable).head? = some recentMessage ∧
    (conversation_creation_backfill sampleBackfillEnv sampleStore).map
        (fun run => attemptsOf run.1) =
      some [("!new:example.org", recentMessage, false),
            ("!new:example.org", olderMessage, true)] := by
  decide

/-- C11, as amended: for a room whose lookup finds a conversation the body of
the loop does nothing else; for a room whose history cannot be fetched nothing
is resolved; otherwise `GetOrCreateChatwootConversation` is called for the room
with the suitable events (type message or encrypted) of the chunk, in the
order of the chunk, starting with the first one, each call after a failed one,
and no call after a successful one: every attempt but the last failed, and if
suitable events are left unattempted the last attempt succeeded.  So a chunk
without suitable event gives no attempt.  The pass looks up every joined room,
in order, whatever failed for the rooms before it. -/
theorem backfill_attempts {σ : Type} (env : BackfillEnv σ) (s : σ) (roomID : RoomID)
    (joined : List RoomID) :
    ((GetChatwootConversationIDFromMatrixRoom (env.stateStore s) roomID).2 = none →
      backfillRoom env s roomID = ([.lookup roomID true], s)) ∧
    (∀ err, (GetChatwootConversationIDFromMatrixRoom (env.stateStore s) roomID).2 ≠ none →
      env.Messages s roomID = .error err →
      backfillRoom env s roomID = ([.lookup roomID false, .messages roomID false], s)) ∧
    (∀ chunk, (GetChatwootConversationIDFromMatrixRoom (env.stateStore s) roomID).2 ≠ none →
      env.Messages s roomID = .ok chunk →
      (∀ a ∈ attemptsOf (backfillRoom env s roomID).1, a.1 = roomID) ∧
      (chunk.filter isSuitable = [] → attemptsOf (backfillRoom env s roomID).1 = []) ∧
      (∀ first, (chunk.filter isSuitable).head? = some first →
        ∃ ok, (attemptsOf (backfillRoom env s roomID).1).head? = some (roomID, first, ok)) ∧
      ∃ rest,
        (attemptsOf (backfillRoom env s roomID).1).map (fun a => a.2.1) ++ rest =
          chunk.filter isSuitable ∧
        (∀ a ∈ (attemptsOf (backfillRoom env s roomID).1).dropLast, a.2.2 = false) ∧
        (rest ≠ [] →
          ∃ evt, (attemptsOf (backfillRoom env s roomID).1).getLast? =
            some (roomID, evt, true))) ∧
    roomsLookedUp (backfillRooms env s joined).1 = joined := by
  refine ⟨?_, ?_, ?_, roomsLookedUp_backfillRooms env s joined⟩
  · intro hl
    unfold backfillRoom
    rcases hg : GetChatwootConversationIDFromMatrixRoom (env.stateStore s) roomID with ⟨c, err⟩
    rw [hg] at hl
    simp only at hl
    subst hl
    rfl
  · intro err hl hm
    unfold backfillRoom
    rcases hg : GetChatwootConversationIDFromMatrixRoom (env.stateStore s) roomID with ⟨c, e⟩
    rw [hg] at hl
    cases e with
    | none => exact absurd rfl hl
    | some e2 => simp only [hm]
  · intro chunk hl hm
    rw [attemptsOf_backfillRoom env s roomID chunk hl hm]
    obtain ⟨_, hroom, rest, hpre, hfailed, hcreated, hnot⟩ :=
      backfillChunk_attempts env roomID s chunk
    refine ⟨hroom, ?_, ?_, rest, hpre, hfailed, ?_⟩
    · intro hnil
      rw [hnil] at hpre
      have := (List.append_eq_nil.mp hpre).1
      exact List.map_eq_nil_iff.mp this
    · intro first hfirst
      cases hat : attemptsOf (backfillChunk env roomID s chunk).1 with
      | nil =>
        rw [hat] at hpre hcreated
        cases hc : (backfillChunk env roomID s chunk).2.2 with
        | true =>
          obtain ⟨evt, hlast⟩ := hcreated hc
          cases hlast
        | false =>
          rw [(hnot hc).1] at hpre
          rw [← hpre] at hfirst
          cases hfirst
      | cons a more =>
        rw [hat] at hpre hroom
        rw [← hpre] at hfirst
        simp only [List.map_cons, List.cons_append, List.head?_cons, Option.some.injEq]
          at hfirst
        have hr : a.1 = roomID := hroom a (List.mem_cons_self _ _)
        refine ⟨a.2.2, ?_⟩
        rw [List.head?_cons, ← hfirst, ← hr]
    · intro hrest
      cases hc : (backfillChunk env roomID s chunk).2.2 with
      | true => exact hcreated hc
      | false => exact absurd (hnot hc).1 hrest

/-- C11 as amended, on the sample world: the mapped sample room is looked up
and left alone, and the pass looks up the three joined rooms. -/
theorem backfill_attempts_witness :
    backfillRoom sampleBackfillEnv sampleStore "!abc:example.org" =
      ([.lookup "!abc:example.org" true], sampleStore) ∧
    roomsLookedUp
      (backfillRooms sampleBackfillEnv sampleStore
        ["!abc:example.org", "!gone:example.org", "!new:example.org"]).1 =
      ["!abc:example.org", "!gone:example.org", "!new:example.org"] :=
  ⟨(backfill_attempts sampleBackfillEnv sampleStore "!abc:example.org" []).1 (by decide),
   (backfill_attempts sampleBackfillEnv sampleStore "!abc:example.org"
      ["!abc:example.org", "!gone:example.org", "!new:example.org"]).2.2.2⟩

end Chatwoot
